import Mathlib

/-!
# Verification of the solarPower core numeric components

A shallow embedding in Lean 4 of the pure numeric core of the solarPower
repository (atmosphere, clear-sky irradiance, plane-of-array transposition,
loss/inverter pipeline, solar position, and civil-time utilities), together
with theorems checking the specification's stated properties.

Modelling conventions:
* JavaScript `number` values are modelled as real numbers (`ℝ`); the one
  place the source explicitly produces `Infinity` (`calculateAirMass` at
  zenith ≥ 90°) is modelled with `EReal` and `⊤`.
* `Math.max`/`Math.min` become `max`/`min`, `Math.pow` with a real exponent
  becomes `Real.rpow`, `Math.acos`/`Math.asin` become `Real.arccos` /
  `Real.arcsin` (the source always clamps the argument into [-1,1] first,
  so the total Mathlib functions agree with the JS semantics).
* The JavaScript remainder operator `%` truncates toward zero; it is
  modelled by `jsMod` below.
* Intermediate `const` bindings of the source functions are lifted to
  named top-level definitions with the same formulas, so that theorems can
  speak about them directly.
-/

noncomputable section

namespace SolarPower

/-- Degrees-to-radians factor, `Math.PI / 180` in the source. -/
def DEG_TO_RAD : ℝ := Real.pi / 180

/-- Radians-to-degrees factor, `180 / Math.PI` in the source. -/
def RAD_TO_DEG : ℝ := 180 / Real.pi

/-- Truncation toward zero of a real number, the rounding used by the
JavaScript `%` operator. -/
def truncR (x : ℝ) : ℤ := if 0 ≤ x then ⌊x⌋ else ⌈x⌉

/-- The JavaScript remainder operator `a % b`:
`a - b * trunc (a / b)` (truncated division). -/
def jsMod (a b : ℝ) : ℝ := a - b * (truncR (a / b) : ℝ)

/-- The double-wrap normalization idiom `((x % b) + b) % b` used by the
source to bring a value into `[0, b)`. -/
def wrapMod (x b : ℝ) : ℝ := jsMod (jsMod x b + b) b

lemma jsMod_nonneg {a b : ℝ} (ha : 0 ≤ a) (hb : 0 < b) : 0 ≤ jsMod a b := by
  have hd : 0 ≤ a / b := div_nonneg ha hb.le
  have : truncR (a / b) = ⌊a / b⌋ := if_pos hd
  rw [jsMod, this]
  have h1 : (⌊a / b⌋ : ℝ) ≤ a / b := Int.floor_le _
  have h2 : b * (⌊a / b⌋ : ℝ) ≤ b * (a / b) := by
    exact mul_le_mul_of_nonneg_left h1 hb.le
  have h3 : b * (a / b) = a := by field_simp
  linarith

lemma jsMod_lt {a b : ℝ} (ha : 0 ≤ a) (hb : 0 < b) : jsMod a b < b := by
  have hd : 0 ≤ a / b := div_nonneg ha hb.le
  have ht : truncR (a / b) = ⌊a / b⌋ := if_pos hd
  rw [jsMod, ht]
  have h1 : a / b < ⌊a / b⌋ + 1 := Int.lt_floor_add_one _
  have h2 : b * (a / b) < b * ((⌊a / b⌋ : ℝ) + 1) := by
    exact mul_lt_mul_of_pos_left h1 hb
  have h3 : b * (a / b) = a := by field_simp
  nlinarith

lemma neg_lt_jsMod {a b : ℝ} (hb : 0 < b) : -b < jsMod a b := by
  rw [jsMod, truncR]
  by_cases hd : 0 ≤ a / b
  · rw [if_pos hd]
    have h1 : (⌊a / b⌋ : ℝ) ≤ a / b := Int.floor_le _
    have h2 : b * (⌊a / b⌋ : ℝ) ≤ b * (a / b) := mul_le_mul_of_nonneg_left h1 hb.le
    have h3 : b * (a / b) = a := by field_simp
    linarith
  · rw [if_neg hd]
    have h1 : a / b ≤ ⌈a / b⌉ := Int.le_ceil _
    have h1' : (⌈a / b⌉ : ℝ) < a / b + 1 := Int.ceil_lt_add_one _
    have h2 : b * (⌈a / b⌉ : ℝ) < b * (a / b + 1) := mul_lt_mul_of_pos_left h1' hb
    have h3 : b * (a / b) = a := by field_simp
    nlinarith

lemma wrapMod_nonneg {x b : ℝ} (hb : 0 < b) : 0 ≤ wrapMod x b := by
  have h := neg_lt_jsMod (a := x) hb
  exact jsMod_nonneg (by linarith) hb

lemma wrapMod_lt {x b : ℝ} (hb : 0 < b) : wrapMod x b < b := by
  have h := neg_lt_jsMod (a := x) hb
  exact jsMod_lt (by linarith) hb

lemma jsMod_one_of_nonneg {h : ℝ} (hh : 0 ≤ h) : jsMod h 1 = h - (⌊h⌋ : ℝ) := by
  have : truncR (h / 1) = ⌊h⌋ := by
    rw [truncR, if_pos (by simpa using hh)]
    norm_num
  rw [jsMod, this]
  ring

/-! ## Atmosphere (`atmosphere.ts`) -/

/-- The finite branch of `calculateAirMass`: the Kasten-Young (1989)
air-mass formula, clamped below at 1 (`Math.max(1, airMass)`). -/
def airMassFinite (zenith : ℝ) : ℝ :=
  max 1 (1 / (Real.cos (zenith * DEG_TO_RAD) +
    0.50572 * (96.07995 - zenith) ^ (-1.6364 : ℝ)))

/-- `calculateAirMass`: returns `Infinity` (modelled as `⊤ : EReal`) for
zenith ≥ 90°, and the Kasten-Young value (≥ 1) otherwise. -/
def calculateAirMass (zenith : ℝ) : EReal :=
  if 90 ≤ zenith then ⊤ else ((airMassFinite zenith : ℝ) : EReal)

/-- `calculateExtraterrestrialIrradiance`: solar constant 1361 W/m² times
the Earth-Sun distance eccentricity correction factor. -/
def calculateExtraterrestrialIrradiance (dayOfYear : ℝ) : ℝ :=
  let B := (2 * Real.pi * (dayOfYear - 1)) / 365
  1361 * (1.00011 + 0.034221 * Real.cos B + 0.00128 * Real.sin B +
    0.000719 * Real.cos (2 * B) + 0.000077 * Real.sin (2 * B))

lemma extraterrestrial_pos (dayOfYear : ℝ) :
    0 < calculateExtraterrestrialIrradiance dayOfYear := by
  rw [calculateExtraterrestrialIrradiance]
  set B := (2 * Real.pi * (dayOfYear - 1)) / 365
  have h1 := Real.neg_one_le_cos B
  have h2 := Real.neg_one_le_sin B
  have h3 := Real.neg_one_le_cos (2 * B)
  have h4 := Real.neg_one_le_sin (2 * B)
  nlinarith

/-! ## Clear-sky irradiance (`irradiance.ts`) -/

/-- The result record of `calculateIrradiance` (`Irradiance` in
`types.ts`).  `airMass` is `EReal` because the source stores `Infinity`
there at night. -/
structure Irradiance where
  ghi : ℝ
  dni : ℝ
  dhi : ℝ
  extraterrestrial : ℝ
  airMass : EReal
  clearnessIndex : ℝ

/-- Beam-transmittance altitude factor `fh1 = exp(-altitude / 8000)`. -/
def fh1 (altitude : ℝ) : ℝ := Real.exp (-altitude / 8000)

/-- Diffuse altitude factor `fh2 = exp(-altitude / 1250)`. -/
def fh2 (altitude : ℝ) : ℝ := Real.exp (-altitude / 1250)

/-- Beam enhancement coefficient `b = 0.664 + 0.163 / fh1`. -/
def beamCoeff (altitude : ℝ) : ℝ := 0.664 + 0.163 / fh1 altitude

/-- Ineichen-Perez empirical coefficient `cg1`. -/
def cg1 (altitude : ℝ) : ℝ := 5.09e-5 * altitude + 0.868

/-- Ineichen-Perez empirical coefficient `cg2`. -/
def cg2 (altitude : ℝ) : ℝ := 3.92e-5 * altitude + 0.0387

/-- Clear-sky direct normal irradiance,
`DNI = b · I0 · exp(-0.09 · AM · TL · fh1)`. -/
def dniClearSky (dayOfYear zenith linkeTurbidity altitude : ℝ) : ℝ :=
  beamCoeff altitude * calculateExtraterrestrialIrradiance dayOfYear *
    Real.exp (-0.09 * airMassFinite zenith * linkeTurbidity * fh1 altitude)

/-- Clear-sky global horizontal irradiance before reconciliation,
`GHI = cg1 · I0 · cos(zenith) · exp(-cg2 · AM · (fh1 + fh2 · (TL - 1)))`. -/
def ghiClearSky (dayOfYear zenith linkeTurbidity altitude : ℝ) : ℝ :=
  cg1 altitude * calculateExtraterrestrialIrradiance dayOfYear *
    Real.cos (zenith * DEG_TO_RAD) *
    Real.exp (-cg2 altitude * airMassFinite zenith *
      (fh1 altitude + fh2 altitude * (linkeTurbidity - 1)))

/-- Diffuse horizontal irradiance: `GHI - DNI·cos(zenith)` floored at the
Rayleigh minimum `0.065 · I0 · cos(zenith)` (`dhi = Math.max(dhi, minDhi)`). -/
def dhiClearSky (dayOfYear zenith linkeTurbidity altitude : ℝ) : ℝ :=
  max (ghiClearSky dayOfYear zenith linkeTurbidity altitude -
        dniClearSky dayOfYear zenith linkeTurbidity altitude *
          Real.cos (zenith * DEG_TO_RAD))
      (0.065 * calculateExtraterrestrialIrradiance dayOfYear *
        Real.cos (zenith * DEG_TO_RAD))

/-- Reconciled GHI: `ghi = dniClearSky · cos(zenith) + dhi`. -/
def ghiRecon (dayOfYear zenith linkeTurbidity altitude : ℝ) : ℝ :=
  dniClearSky dayOfYear zenith linkeTurbidity altitude *
    Real.cos (zenith * DEG_TO_RAD) +
  dhiClearSky dayOfYear zenith linkeTurbidity altitude

/-- `calculateIrradiance` (Ineichen-Perez clear-sky model).  The date
argument enters the source function only through `getDayOfYear(date)`,
which we take directly as the `dayOfYear` parameter. -/
def calculateIrradiance (dayOfYear zenith linkeTurbidity altitude : ℝ) :
    Irradiance :=
  if 90 ≤ zenith then
    { ghi := 0, dni := 0, dhi := 0,
      extraterrestrial := calculateExtraterrestrialIrradiance dayOfYear,
      airMass := ⊤, clearnessIndex := 0 }
  else
    let cosZenith := Real.cos (zenith * DEG_TO_RAD)
    let extraterrestrialHorizontal :=
      calculateExtraterrestrialIrradiance dayOfYear * cosZenith
    let ghi := ghiRecon dayOfYear zenith linkeTurbidity altitude
    { ghi := max 0 ghi,
      dni := max 0 (dniClearSky dayOfYear zenith linkeTurbidity altitude),
      dhi := max 0 (dhiClearSky dayOfYear zenith linkeTurbidity altitude),
      extraterrestrial := calculateExtraterrestrialIrradiance dayOfYear,
      airMass := ((airMassFinite zenith : ℝ) : EReal),
      clearnessIndex :=
        min 1 (max 0 (if 0 < extraterrestrialHorizontal then
          ghi / extraterrestrialHorizontal else 0)) }

lemma cos_zenith_pos {zenith : ℝ} (h0 : 0 ≤ zenith) (h90 : zenith < 90) :
    0 < Real.cos (zenith * DEG_TO_RAD) := by
  apply Real.cos_pos_of_mem_Ioo
  constructor
  · have hpi := Real.pi_pos
    have : 0 ≤ zenith * DEG_TO_RAD := by
      apply mul_nonneg h0
      rw [DEG_TO_RAD]
      positivity
    linarith [hpi]
  · rw [DEG_TO_RAD]
    have hpi := Real.pi_pos
    calc zenith * (Real.pi / 180) < 90 * (Real.pi / 180) := by
          apply mul_lt_mul_of_pos_right h90
          positivity
      _ = Real.pi / 2 := by ring

lemma dniClearSky_pos (dayOfYear zenith linkeTurbidity altitude : ℝ) :
    0 < dniClearSky dayOfYear zenith linkeTurbidity altitude := by
  rw [dniClearSky]
  have hb : 0 < beamCoeff altitude := by
    rw [beamCoeff, fh1]
    positivity
  have he := extraterrestrial_pos dayOfYear
  positivity

/-- Irradiance components when the sun is up (`0 ≤ zenith < 90`): the
maxima in the returned record are all redundant because every component is
strictly positive. -/
lemma calculateIrradiance_day (dayOfYear zenith linkeTurbidity altitude : ℝ)
    (h0 : 0 ≤ zenith) (h90 : zenith < 90) :
    (calculateIrradiance dayOfYear zenith linkeTurbidity altitude).ghi =
      ghiRecon dayOfYear zenith linkeTurbidity altitude ∧
    (calculateIrradiance dayOfYear zenith linkeTurbidity altitude).dni =
      dniClearSky dayOfYear zenith linkeTurbidity altitude ∧
    (calculateIrradiance dayOfYear zenith linkeTurbidity altitude).dhi =
      dhiClearSky dayOfYear zenith linkeTurbidity altitude := by
  have hcos := cos_zenith_pos h0 h90
  have hdni := dniClearSky_pos dayOfYear zenith linkeTurbidity altitude
  have hext := extraterrestrial_pos dayOfYear
  have hmin : 0 < 0.065 * calculateExtraterrestrialIrradiance dayOfYear *
      Real.cos (zenith * DEG_TO_RAD) := by positivity
  have hdhi : 0 < dhiClearSky dayOfYear zenith linkeTurbidity altitude :=
    lt_of_lt_of_le hmin (le_max_right _ _)
  have hghi : 0 < ghiRecon dayOfYear zenith linkeTurbidity altitude := by
    rw [ghiRecon]
    have : 0 < dniClearSky dayOfYear zenith linkeTurbidity altitude *
        Real.cos (zenith * DEG_TO_RAD) := mul_pos hdni hcos
    linarith
  rw [calculateIrradiance, if_neg (by linarith)]
  refine ⟨?_, ?_, ?_⟩ <;> simp [max_eq_right, hghi.le, hdni.le, hdhi.le]

/-! ## Loss models (`losses.ts`) -/

/-- `calculateTempDerating`: `1 + (tempCoeff/100)·(cellTemp - stcTemp)`,
clamped into [0.5, 1.15]. -/
def calculateTempDerating (cellTemp tempCoefficient stcTemp : ℝ) : ℝ :=
  max 0.5 (min 1.15 (1 + tempCoefficient / 100 * (cellTemp - stcTemp)))

/-- `calculateIAM` (ASHRAE incidence-angle modifier):
0 at AOI ≥ 90°, otherwise `1 - bo·(1/cos(AOI) - 1)` clamped into [0,1]. -/
def calculateIAM (angleOfIncidence bo : ℝ) : ℝ :=
  if 90 ≤ angleOfIncidence then 0
  else max 0 (min 1
    (1 - bo * (1 / Real.cos (angleOfIncidence * DEG_TO_RAD) - 1)))

lemma calculateIAM_mem (angleOfIncidence bo : ℝ) :
    0 ≤ calculateIAM angleOfIncidence bo ∧
    calculateIAM angleOfIncidence bo ≤ 1 := by
  rw [calculateIAM]
  by_cases h : 90 ≤ angleOfIncidence
  · rw [if_pos h]; norm_num
  · rw [if_neg h]
    constructor
    · exact le_max_left _ _
    · exact max_le (by norm_num) (min_le_left _ _)

/-! ## Claim theorems: irradiance bounds and invariants -/

/-- C2. Daytime consistency: for every input with zenith in [0°, 90°)
(zenith is an angle from the vertical, hence nonnegative in the data
model), the irradiance returned by `calculateIrradiance` satisfies
`ghi = dni·cos(zenith) + dhi` exactly after reconciliation, with
`ghi`, `dni`, `dhi` all ≥ 0 and `dhi ≤ ghi`. -/
theorem claim_C2_daytime_consistency
    (dayOfYear zenith linkeTurbidity altitude : ℝ)
    (h0 : 0 ≤ zenith) (h90 : zenith < 90) :
    (calculateIrradiance dayOfYear zenith linkeTurbidity altitude).ghi =
      (calculateIrradiance dayOfYear zenith linkeTurbidity altitude).dni *
        Real.cos (zenith * DEG_TO_RAD) +
      (calculateIrradiance dayOfYear zenith linkeTurbidity altitude).dhi ∧
    0 ≤ (calculateIrradiance dayOfYear zenith linkeTurbidity altitude).ghi ∧
    0 ≤ (calculateIrradiance dayOfYear zenith linkeTurbidity altitude).dni ∧
    0 ≤ (calculateIrradiance dayOfYear zenith linkeTurbidity altitude).dhi ∧
    (calculateIrradiance dayOfYear zenith linkeTurbidity altitude).dhi ≤
      (calculateIrradiance dayOfYear zenith linkeTurbidity altitude).ghi := by
  obtain ⟨hg, hn, hh⟩ :=
    calculateIrradiance_day dayOfYear zenith linkeTurbidity altitude h0 h90
  have hcos := cos_zenith_pos h0 h90
  have hdni := dniClearSky_pos dayOfYear zenith linkeTurbidity altitude
  have hext := extraterrestrial_pos dayOfYear
  have hmin : 0 < 0.065 * calculateExtraterrestrialIrradiance dayOfYear *
      Real.cos (zenith * DEG_TO_RAD) := by positivity
  have hdhi : 0 < dhiClearSky dayOfYear zenith linkeTurbidity altitude :=
    lt_of_lt_of_le hmin (le_max_right _ _)
  have hbeam : 0 < dniClearSky dayOfYear zenith linkeTurbidity altitude *
      Real.cos (zenith * DEG_TO_RAD) := mul_pos hdni hcos
  refine ⟨?_, ?_, ?_, ?_, ?_⟩
  · rw [hg, hn, hh, ghiRecon]
  · rw [hg, ghiRecon]; linarith
  · rw [hn]; linarith
  · rw [hh]; linarith
  · rw [hg, hh, ghiRecon]; linarith

/-- C2 witness: the daytime consistency theorem instantiated at day 172,
zenith 45°, turbidity 3, sea level. -/
theorem claim_C2_daytime_consistency_witness :
    (calculateIrradiance 172 45 3 0).ghi =
      (calculateIrradiance 172 45 3 0).dni * Real.cos (45 * DEG_TO_RAD) +
      (calculateIrradiance 172 45 3 0).dhi ∧
    0 ≤ (calculateIrradiance 172 45 3 0).ghi ∧
    0 ≤ (calculateIrradiance 172 45 3 0).dni ∧
    0 ≤ (calculateIrradiance 172 45 3 0).dhi ∧
    (calculateIrradiance 172 45 3 0).dhi ≤ (calculateIrradiance 172 45 3 0).ghi :=
  claim_C2_daytime_consistency 172 45 3 0 (by norm_num) (by norm_num)

/-- C3. Bounds: `calculateAirMass` returns a value ≥ 1 and is infinite
(`⊤`) exactly when asked at zenith ≥ 90°; the clearness index returned by
`calculateIrradiance` lies in [0,1]; `calculateIAM` lies in [0,1] and is
exactly 0 for angle of incidence ≥ 90°; `calculateTempDerating` lies in
[0.5, 1.15]. -/
theorem claim_C3_bounds :
    (∀ zenith : ℝ, (1 : EReal) ≤ calculateAirMass zenith) ∧
    (∀ zenith : ℝ, 90 ≤ zenith → calculateAirMass zenith = ⊤) ∧
    (∀ dayOfYear zenith linkeTurbidity altitude : ℝ,
      0 ≤ (calculateIrradiance dayOfYear zenith linkeTurbidity
            altitude).clearnessIndex ∧
      (calculateIrradiance dayOfYear zenith linkeTurbidity
            altitude).clearnessIndex ≤ 1) ∧
    (∀ aoi bo : ℝ, 0 ≤ calculateIAM aoi bo ∧ calculateIAM aoi bo ≤ 1) ∧
    (∀ aoi bo : ℝ, 90 ≤ aoi → calculateIAM aoi bo = 0) ∧
    (∀ cellTemp tempCoefficient stcTemp : ℝ,
      0.5 ≤ calculateTempDerating cellTemp tempCoefficient stcTemp ∧
      calculateTempDerating cellTemp tempCoefficient stcTemp ≤ 1.15) := by
  refine ⟨?_, ?_, ?_, ?_, ?_, ?_⟩
  · intro zenith
    rw [calculateAirMass]
    by_cases h : 90 ≤ zenith
    · rw [if_pos h]; exact le_top
    · rw [if_neg h]
      have h1 : (1 : ℝ) ≤ airMassFinite zenith := le_max_left _ _
      exact_mod_cast h1
  · intro zenith h
    rw [calculateAirMass, if_pos h]
  · intro dayOfYear zenith linkeTurbidity altitude
    rw [calculateIrradiance]
    by_cases h : 90 ≤ zenith
    · rw [if_pos h]; norm_num
    · rw [if_neg h]
      constructor
      · exact le_min (by norm_num) (le_max_left _ _)
      · exact min_le_left _ _
  · exact calculateIAM_mem
  · intro aoi bo h
    rw [calculateIAM, if_pos h]
  · intro cellTemp tempCoefficient stcTemp
    constructor
    · exact le_max_left _ _
    · exact max_le (by norm_num) (min_le_left _ _)

/-- C3 witness: bounds instantiated at concrete inputs, in particular
`calculateAirMass 100 = ⊤` and `calculateIAM 95 0.05 = 0`. -/
theorem claim_C3_bounds_witness :
    calculateAirMass 100 = ⊤ ∧
    calculateIAM 95 0.05 = 0 ∧
    (1 : EReal) ≤ calculateAirMass 30 ∧
    0.5 ≤ calculateTempDerating 60 (-0.4) 25 := by
  refine ⟨?_, ?_, ?_, ?_⟩
  · exact claim_C3_bounds.2.1 100 (by norm_num)
  · exact claim_C3_bounds.2.2.2.2.1 95 0.05 (by norm_num)
  · exact claim_C3_bounds.1 30
  · exact (claim_C3_bounds.2.2.2.2.2 60 (-0.4) 25).1

/-! ## Plane-of-array transposition (`panelOutput.ts` and the Perez
helpers of `irradiance.ts`) -/

/-- `calculateAngleOfIncidence`: angle between the sun ray and the panel
normal, via the standard dot-product formula; the arc-cosine argument is
clamped into [-1, 1]. -/
def calculateAngleOfIncidence (sunZenith sunAzimuth tilt azimuth : ℝ) : ℝ :=
  Real.arccos (max (-1) (min 1
    (Real.cos (sunZenith * DEG_TO_RAD) * Real.cos (tilt * DEG_TO_RAD) +
     Real.sin (sunZenith * DEG_TO_RAD) * Real.sin (tilt * DEG_TO_RAD) *
       Real.cos (sunAzimuth * DEG_TO_RAD - azimuth * DEG_TO_RAD)))) *
  (180 / Real.pi)

lemma calculateAngleOfIncidence_mem (sunZenith sunAzimuth tilt azimuth : ℝ) :
    0 ≤ calculateAngleOfIncidence sunZenith sunAzimuth tilt azimuth ∧
    calculateAngleOfIncidence sunZenith sunAzimuth tilt azimuth ≤ 180 := by
  rw [calculateAngleOfIncidence]
  have hpi := Real.pi_pos
  set x := max (-1) (min 1
    (Real.cos (sunZenith * DEG_TO_RAD) * Real.cos (tilt * DEG_TO_RAD) +
     Real.sin (sunZenith * DEG_TO_RAD) * Real.sin (tilt * DEG_TO_RAD) *
       Real.cos (sunAzimuth * DEG_TO_RAD - azimuth * DEG_TO_RAD)))
  constructor
  · apply mul_nonneg (Real.arccos_nonneg _)
    positivity
  · have h1 : Real.arccos x ≤ Real.pi := Real.arccos_le_pi _
    calc Real.arccos x * (180 / Real.pi) ≤ Real.pi * (180 / Real.pi) := by
          apply mul_le_mul_of_nonneg_right h1
          positivity
      _ = 180 := by field_simp

/-- `calculateClearness` (Perez sky clearness ε).  `Math.pow(zenithRad, 3)`
is a cube of a real number, modelled with the natural-number power. -/
def calculateClearness (dhi dni zenith : ℝ) : ℝ :=
  if dhi = 0 then 1
  else ((dhi + dni) / dhi + 1.041 * (zenith * DEG_TO_RAD) ^ (3 : ℕ)) /
       (1 + 1.041 * (zenith * DEG_TO_RAD) ^ (3 : ℕ))

/-- `calculateBrightness` (Perez sky brightness Δ). -/
def calculateBrightness (dhi extraterrestrial airMass : ℝ) : ℝ :=
  if extraterrestrial = 0 then 0 else dhi * airMass / extraterrestrial

/-- One row of the Perez coefficient table. -/
structure PerezCoeffs where
  f11 : ℝ
  f12 : ℝ
  f13 : ℝ
  f21 : ℝ
  f22 : ℝ
  f23 : ℝ

/-- `getPerezCoefficients`: the 8-bin clearness lookup (bin boundaries at
ε = 1.065, 1.23, 1.5, 1.95, 2.8, 4.5, 6.2).  The source's linear scan over
the sorted `bins` array selects the row indexed by the number of
boundaries not exceeding ε, which the nested conditional below reproduces. -/
def getPerezCoefficients (epsilon : ℝ) : PerezCoeffs :=
  if epsilon < 1.065 then ⟨-0.0083, 0.5877, -0.0621, -0.0596, 0.0721, -0.0220⟩
  else if epsilon < 1.23 then ⟨0.1299, 0.6826, -0.1514, -0.0189, 0.0660, -0.0289⟩
  else if epsilon < 1.5 then ⟨0.3297, 0.4869, -0.2211, 0.0554, -0.0640, -0.0261⟩
  else if epsilon < 1.95 then ⟨0.5682, 0.1875, -0.2951, 0.1089, -0.1519, -0.0140⟩
  else if epsilon < 2.8 then ⟨0.8730, -0.3920, -0.3616, 0.2256, -0.4620, 0.0012⟩
  else if epsilon < 4.5 then ⟨1.1326, -1.2367, -0.4118, 0.2878, -0.8230, 0.0559⟩
  else if epsilon < 6.2 then ⟨1.0602, -1.5999, -0.3589, 0.2642, -1.1272, 0.1311⟩
  else ⟨0.6777, -0.3273, -0.2504, 0.1561, -1.3765, 0.2506⟩

/-- `calculatePerezBrightness`, circumsolar coefficient F1 (floored at 0).
The zenith is capped at 87° before conversion to radians. -/
def perezF1 (epsilon delta zenith : ℝ) : ℝ :=
  max 0 ((getPerezCoefficients epsilon).f11 +
    (getPerezCoefficients epsilon).f12 * delta +
    (getPerezCoefficients epsilon).f13 * (min zenith 87 * DEG_TO_RAD))

/-- `calculatePerezBrightness`, horizon-brightening coefficient F2. -/
def perezF2 (epsilon delta zenith : ℝ) : ℝ :=
  (getPerezCoefficients epsilon).f21 +
    (getPerezCoefficients epsilon).f22 * delta +
    (getPerezCoefficients epsilon).f23 * (min zenith 87 * DEG_TO_RAD)

/-- The result record of `calculatePOAIrradiance` (`POAIrradiance` in
`types.ts`). -/
structure POAIrradiance where
  total : ℝ
  beam : ℝ
  diffuse : ℝ
  reflected : ℝ
  angleOfIncidence : ℝ
  effectiveIrradiance : ℝ

/-- Beam component of POA irradiance:
`dni · max(0, cos AOI)` when `AOI < 90 ∧ dni > 0`, else 0. -/
def poaBeam (irr : Irradiance) (aoi : ℝ) : ℝ :=
  if aoi < 90 ∧ 0 < irr.dni then
    irr.dni * max 0 (Real.cos (aoi * DEG_TO_RAD))
  else 0

/-- Diffuse component of POA irradiance (Perez anisotropic model):
isotropic + circumsolar + horizon-brightening contributions, floored at 0.
The source reads `irradiance.airMass` here; it is finite (`EReal.toReal`)
in every reachable daytime state. -/
def poaDiffuse (irr : Irradiance) (sunZenith tilt aoi : ℝ) : ℝ :=
  if 0 < irr.dhi then
    let epsilon := calculateClearness irr.dhi irr.dni sunZenith
    let delta := calculateBrightness irr.dhi irr.extraterrestrial
      irr.airMass.toReal
    let f1 := perezF1 epsilon delta sunZenith
    let f2 := perezF2 epsilon delta sunZenith
    let a := max 0 (Real.cos (aoi * DEG_TO_RAD))
    let b := max (Real.cos (85 * DEG_TO_RAD))
      (Real.cos (sunZenith * DEG_TO_RAD))
    max 0 (irr.dhi * ((1 + Real.cos (tilt * DEG_TO_RAD)) / 2) * (1 - f1) +
           irr.dhi * f1 * (a / b) +
           irr.dhi * f2 * Real.sin (tilt * DEG_TO_RAD))
  else 0

/-- Ground-reflected component of POA irradiance:
`ghi · albedo · (1 - cos tilt) / 2`. -/
def poaReflected (irr : Irradiance) (tilt albedo : ℝ) : ℝ :=
  irr.ghi * albedo * ((1 - Real.cos (tilt * DEG_TO_RAD)) / 2)

/-- `calculatePOAIrradiance` (Perez transposition model).  At night
(zenith ≥ 90°) or with no global irradiance (GHI ≤ 0) it returns the
all-zero record, with the angle of incidence reported as 90 when the sun
is below the horizon and 0 otherwise. -/
def calculatePOAIrradiance (irr : Irradiance)
    (sunZenith sunAzimuth tilt azimuth albedo : ℝ) : POAIrradiance :=
  if 90 ≤ sunZenith ∨ irr.ghi ≤ 0 then
    { total := 0, beam := 0, diffuse := 0, reflected := 0,
      angleOfIncidence := if 90 ≤ sunZenith then 90 else 0,
      effectiveIrradiance := 0 }
  else
    let aoi := calculateAngleOfIncidence sunZenith sunAzimuth tilt azimuth
    let beam := poaBeam irr aoi
    let diffuse := poaDiffuse irr sunZenith tilt aoi
    let reflected := poaReflected irr tilt albedo
    { total := max 0 (beam + diffuse + reflected),
      beam := max 0 beam,
      diffuse := max 0 diffuse,
      reflected := max 0 reflected,
      angleOfIncidence := aoi,
      effectiveIrradiance :=
        max 0 (beam * calculateIAM aoi 0.05 + diffuse * 0.97 + reflected) }

lemma poaBeam_nonneg (irr : Irradiance) (aoi : ℝ) : 0 ≤ poaBeam irr aoi := by
  rw [poaBeam]
  by_cases h : aoi < 90 ∧ 0 < irr.dni
  · rw [if_pos h]
    exact mul_nonneg h.2.le (le_max_left _ _)
  · rw [if_neg h]

lemma poaDiffuse_nonneg (irr : Irradiance) (sunZenith tilt aoi : ℝ) :
    0 ≤ poaDiffuse irr sunZenith tilt aoi := by
  rw [poaDiffuse]
  by_cases h : 0 < irr.dhi
  · rw [if_pos h]; exact le_max_left _ _
  · rw [if_neg h]

/-! ## Claim theorems: night invariant and POA decomposition -/

/-- C1. Night invariant: with solar zenith ≥ 90°, `calculateIrradiance`
returns `ghi = dni = dhi = 0` and `clearnessIndex = 0`, and
`calculatePOAIrradiance` (also whenever GHI ≤ 0) returns the all-zero POA
record with the angle of incidence 90 when zenith ≥ 90 and 0 otherwise.
Both functions are total, so no exception can be raised. -/
theorem claim_C1_night_invariant :
    (∀ dayOfYear zenith linkeTurbidity altitude : ℝ, 90 ≤ zenith →
      (calculateIrradiance dayOfYear zenith linkeTurbidity altitude).ghi = 0 ∧
      (calculateIrradiance dayOfYear zenith linkeTurbidity altitude).dni = 0 ∧
      (calculateIrradiance dayOfYear zenith linkeTurbidity altitude).dhi = 0 ∧
      (calculateIrradiance dayOfYear zenith linkeTurbidity
        altitude).clearnessIndex = 0) ∧
    (∀ (irr : Irradiance) (sunZenith sunAzimuth tilt azimuth albedo : ℝ),
      90 ≤ sunZenith ∨ irr.ghi ≤ 0 →
      (calculatePOAIrradiance irr sunZenith sunAzimuth tilt azimuth
        albedo).total = 0 ∧
      (calculatePOAIrradiance irr sunZenith sunAzimuth tilt azimuth
        albedo).beam = 0 ∧
      (calculatePOAIrradiance irr sunZenith sunAzimuth tilt azimuth
        albedo).diffuse = 0 ∧
      (calculatePOAIrradiance irr sunZenith sunAzimuth tilt azimuth
        albedo).reflected = 0 ∧
      (calculatePOAIrradiance irr sunZenith sunAzimuth tilt azimuth
        albedo).effectiveIrradiance = 0 ∧
      (calculatePOAIrradiance irr sunZenith sunAzimuth tilt azimuth
        albedo).angleOfIncidence = (if 90 ≤ sunZenith then 90 else 0)) := by
  constructor
  · intro dayOfYear zenith linkeTurbidity altitude h
    rw [calculateIrradiance, if_pos h]
    exact ⟨rfl, rfl, rfl, rfl⟩
  · intro irr sunZenith sunAzimuth tilt azimuth albedo h
    rw [calculatePOAIrradiance, if_pos h]
    exact ⟨rfl, rfl, rfl, rfl, rfl, rfl⟩

/-- C1 witness: the night invariant at zenith 100° (irradiance model) and
at an irradiance record with GHI 0 (POA model, daytime zenith 45°, where
the reported angle of incidence is 0). -/
theorem claim_C1_night_invariant_witness :
    (calculateIrradiance 15 100 3 0).ghi = 0 ∧
    (calculateIrradiance 15 100 3 0).dni = 0 ∧
    (calculateIrradiance 15 100 3 0).dhi = 0 ∧
    (calculateIrradiance 15 100 3 0).clearnessIndex = 0 ∧
    (calculatePOAIrradiance ⟨0, 0, 0, 1361, ((1 : ℝ) : EReal), 0⟩
      45 180 30 180 0.2).total = 0 ∧
    (calculatePOAIrradiance ⟨0, 0, 0, 1361, ((1 : ℝ) : EReal), 0⟩
      45 180 30 180 0.2).angleOfIncidence = 0 := by
  obtain ⟨h1, h2, h3, h4⟩ :=
    claim_C1_night_invariant.1 15 100 3 0 (by norm_num)
  obtain ⟨p1, _, _, _, _, p6⟩ :=
    claim_C1_night_invariant.2 ⟨0, 0, 0, 1361, ((1 : ℝ) : EReal), 0⟩
      45 180 30 180 0.2 (Or.inr (by norm_num))
  refine ⟨h1, h2, h3, h4, p1, ?_⟩
  rw [p6, if_neg (by norm_num)]

/-- C8. POA decomposition and modifier: for every daytime input
(zenith < 90°, GHI > 0, nonnegative albedo, finite air mass),
`calculatePOAIrradiance` returns `total = beam + diffuse + reflected` with
all three components ≥ 0, an angle of incidence in [0°, 180°] via the
arc-cosine domain clamp, and
`effectiveIrradiance = beam · IAM(AOI) + 0.97 · diffuse + reflected`:
the ASHRAE modifier applies to the beam only, the diffuse is scaled by the
fixed 0.97 factor, and the reflected term is unchanged. -/
theorem claim_C8_poa_decomposition (irr : Irradiance)
    (sunZenith sunAzimuth tilt azimuth albedo : ℝ)
    (hz : sunZenith < 90) (hg : 0 < irr.ghi) (halb : 0 ≤ albedo)
    (_ham : irr.airMass ≠ ⊤) :
    (calculatePOAIrradiance irr sunZenith sunAzimuth tilt azimuth
        albedo).total =
      (calculatePOAIrradiance irr sunZenith sunAzimuth tilt azimuth
        albedo).beam +
      (calculatePOAIrradiance irr sunZenith sunAzimuth tilt azimuth
        albedo).diffuse +
      (calculatePOAIrradiance irr sunZenith sunAzimuth tilt azimuth
        albedo).reflected ∧
    0 ≤ (calculatePOAIrradiance irr sunZenith sunAzimuth tilt azimuth
        albedo).beam ∧
    0 ≤ (calculatePOAIrradiance irr sunZenith sunAzimuth tilt azimuth
        albedo).diffuse ∧
    0 ≤ (calculatePOAIrradiance irr sunZenith sunAzimuth tilt azimuth
        albedo).reflected ∧
    0 ≤ (calculatePOAIrradiance irr sunZenith sunAzimuth tilt azimuth
        albedo).angleOfIncidence ∧
    (calculatePOAIrradiance irr sunZenith sunAzimuth tilt azimuth
        albedo).angleOfIncidence ≤ 180 ∧
    (calculatePOAIrradiance irr sunZenith sunAzimuth tilt azimuth
        albedo).effectiveIrradiance =
      (calculatePOAIrradiance irr sunZenith sunAzimuth tilt azimuth
        albedo).beam *
        calculateIAM ((calculatePOAIrradiance irr sunZenith sunAzimuth tilt
          azimuth albedo).angleOfIncidence) 0.05 +
      0.97 * (calculatePOAIrradiance irr sunZenith sunAzimuth tilt azimuth
        albedo).diffuse +
      (calculatePOAIrradiance irr sunZenith sunAzimuth tilt azimuth
        albedo).reflected := by
  have hcond : ¬ (90 ≤ sunZenith ∨ irr.ghi ≤ 0) := by
    push_neg
    exact ⟨lt_of_not_le fun h => absurd h (not_le.mpr hz), hg⟩
  set aoi := calculateAngleOfIncidence sunZenith sunAzimuth tilt azimuth
    with haoi
  have hbeam : 0 ≤ poaBeam irr aoi := poaBeam_nonneg irr aoi
  have hdiff : 0 ≤ poaDiffuse irr sunZenith tilt aoi :=
    poaDiffuse_nonneg irr sunZenith tilt aoi
  have hrefl : 0 ≤ poaReflected irr tilt albedo := by
    rw [poaReflected]
    have hcos : Real.cos (tilt * DEG_TO_RAD) ≤ 1 := Real.cos_le_one _
    apply mul_nonneg (mul_nonneg hg.le halb)
    linarith
  have hiam := calculateIAM_mem aoi 0.05
  have heff : 0 ≤ poaBeam irr aoi * calculateIAM aoi 0.05 +
      poaDiffuse irr sunZenith tilt aoi * 0.97 +
      poaReflected irr tilt albedo := by
    have h1 : 0 ≤ poaBeam irr aoi * calculateIAM aoi 0.05 :=
      mul_nonneg hbeam hiam.1
    have h2 : 0 ≤ poaDiffuse irr sunZenith tilt aoi * 0.97 := by
      apply mul_nonneg hdiff; norm_num
    linarith
  have htot : 0 ≤ poaBeam irr aoi + poaDiffuse irr sunZenith tilt aoi +
      poaReflected irr tilt albedo := by linarith
  obtain ⟨ha0, ha180⟩ :=
    calculateAngleOfIncidence_mem sunZenith sunAzimuth tilt azimuth
  rw [calculatePOAIrradiance, if_neg hcond]
  simp only [← haoi]
  rw [max_eq_right htot, max_eq_right hbeam, max_eq_right hdiff,
    max_eq_right hrefl, max_eq_right heff]
  exact ⟨rfl, hbeam, hdiff, hrefl, ha0, ha180, by ring⟩

/-- C8 witness: the POA decomposition at a concrete daytime state
(zenith 30°, GHI 1000 W/m², finite air mass 2, albedo 0.2). -/
theorem claim_C8_poa_decomposition_witness :
    (calculatePOAIrradiance ⟨1000, 600, 300, 1361, ((2 : ℝ) : EReal), 0.8⟩
        30 180 30 180 0.2).total =
      (calculatePOAIrradiance ⟨1000, 600, 300, 1361, ((2 : ℝ) : EReal), 0.8⟩
        30 180 30 180 0.2).beam +
      (calculatePOAIrradiance ⟨1000, 600, 300, 1361, ((2 : ℝ) : EReal), 0.8⟩
        30 180 30 180 0.2).diffuse +
      (calculatePOAIrradiance ⟨1000, 600, 300, 1361, ((2 : ℝ) : EReal), 0.8⟩
        30 180 30 180 0.2).reflected ∧
    0 ≤ (calculatePOAIrradiance ⟨1000, 600, 300, 1361, ((2 : ℝ) : EReal), 0.8⟩
        30 180 30 180 0.2).beam :=
  let irr : Irradiance := ⟨1000, 600, 300, 1361, ((2 : ℝ) : EReal), 0.8⟩
  have h := claim_C8_poa_decomposition irr 30 180 30 180 0.2
    (by norm_num) (by norm_num) (by norm_num)
    (by simp [Irradiance.airMass])
  ⟨h.1, h.2.1⟩

/-! ## System losses, inverter and DC/AC power (`losses.ts`,
`panelOutput.ts`) -/

/-- `SystemLosses` (`types.ts`): the eight multiplicative loss fractions. -/
structure SystemLosses where
  soiling : ℝ
  shading : ℝ
  mismatch : ℝ
  wiring : ℝ
  connections : ℝ
  lidDegradation : ℝ
  nameplateDerate : ℝ
  availability : ℝ

/-- `DEFAULT_SYSTEM_LOSSES`. -/
def DEFAULT_SYSTEM_LOSSES : SystemLosses :=
  ⟨0.02, 0.0, 0.02, 0.02, 0.005, 0.015, 0.01, 0.003⟩

/-- `InverterConfig` (`types.ts`). -/
structure InverterConfig where
  efficiency : ℝ
  acCapacity : ℝ
  dcAcRatio : ℝ

/-- `DEFAULT_INVERTER_CONFIG`: 96% efficiency, AC capacity derived from
the DC capacity, DC:AC ratio 1.2. -/
def DEFAULT_INVERTER_CONFIG : InverterConfig := ⟨0.96, 0, 1.2⟩

/-- `PanelConfig` (`types.ts`), restricted to the fields the power
pipeline reads. -/
structure PanelConfig where
  ratedPower : ℝ
  noct : ℝ
  tempCoefficient : ℝ

/-- `PanelOrientation` (`types.ts`). -/
structure PanelOrientation where
  tilt : ℝ
  azimuth : ℝ

/-- `calculateCellTemperature` (NOCT method with an empirical wind
correction; the power pipeline always calls it with the default wind
speed 1 m/s). -/
def calculateCellTemperature (ambientTemp irradiance noct windSpeed : ℝ) :
    ℝ :=
  if irradiance ≤ 0 then ambientTemp
  else ambientTemp +
    (noct - 20) * (irradiance / 800) * (1 - 0.1 * min (windSpeed - 1) 5)

/-- `calculateSystemLossFactor`: the product of `(1 - lossᵢ)` over the
eight configured loss fractions. -/
def calculateSystemLossFactor (losses : SystemLosses) : ℝ :=
  (1 - losses.soiling) * (1 - losses.shading) * (1 - losses.mismatch) *
  (1 - losses.wiring) * (1 - losses.connections) *
  (1 - losses.lidDegradation) * (1 - losses.nameplateDerate) *
  (1 - losses.availability)

/-- The inverter AC capacity:
`inverterConfig.acCapacity || dcCapacity / inverterConfig.dcAcRatio`
(JavaScript `||` falls through on the falsy value 0). -/
def inverterAcCapacity (cfg : InverterConfig) (dcCapacity : ℝ) : ℝ :=
  if cfg.acCapacity = 0 then dcCapacity / cfg.dcAcRatio else cfg.acCapacity

/-- The inverter part-load efficiency multiplier: a two-segment linear
ramp below 20% load ratio, 1 at or above 20%. -/
def partLoadMultiplier (loadRatio : ℝ) : ℝ :=
  if loadRatio < 0.1 then 0.85 + loadRatio * 1.5
  else if loadRatio < 0.2 then 0.95 + loadRatio * 0.25
  else 1

/-- The result record of `calculateInverterOutput`. -/
structure InverterResult where
  acPower : ℝ
  clippingLoss : ℝ
  efficiency : ℝ

/-- `calculateInverterOutput`: part-load efficiency, pre-clip AC power,
and clipping to the inverter AC capacity. -/
def calculateInverterOutput (dcPower : ℝ) (cfg : InverterConfig)
    (dcCapacity : ℝ) : InverterResult :=
  if dcPower ≤ 0 then ⟨0, 0, 0⟩
  else
    let acCapacity := inverterAcCapacity cfg dcCapacity
    let effectiveEfficiency :=
      cfg.efficiency * partLoadMultiplier (dcPower / dcCapacity)
    let acPre := dcPower * effectiveEfficiency
    if acCapacity < acPre then ⟨acCapacity, acPre - acCapacity,
      effectiveEfficiency⟩
    else ⟨acPre, 0, effectiveEfficiency⟩

/-- `LossFactors` (`types.ts`). -/
structure LossFactors where
  temperature : ℝ
  incidenceAngle : ℝ
  spectral : ℝ
  systemTotal : ℝ
  inverterClipping : ℝ

/-- The result record of `calculateDCPower`. -/
structure DCResult where
  dcPower : ℝ
  cellTemp : ℝ
  losses : LossFactors

/-- `calculateDCPower`: short-circuits to zero power when the effective
irradiance is ≤ 0, otherwise applies temperature derating and the system
loss factor to the irradiance-scaled rated power. -/
def calculateDCPower (poa : POAIrradiance) (panel : PanelConfig)
    (ambientTemp : ℝ) (systemLosses : SystemLosses) : DCResult :=
  if poa.effectiveIrradiance ≤ 0 then
    ⟨0, ambientTemp,
      ⟨1, 1, 1, calculateSystemLossFactor systemLosses, 0⟩⟩
  else
    let cellTemp :=
      calculateCellTemperature ambientTemp poa.total panel.noct 1
    let tempFactor := calculateTempDerating cellTemp panel.tempCoefficient 25
    let iamFactor := poa.effectiveIrradiance /
      (if poa.total = 0 then 1 else poa.total)
    let systemFactor := calculateSystemLossFactor systemLosses
    let dcPower := panel.ratedPower * (poa.effectiveIrradiance / 1000) *
      tempFactor * systemFactor
    ⟨max 0 dcPower, cellTemp,
      ⟨tempFactor, iamFactor, 1, systemFactor, 0⟩⟩

/-- The result record of `calculatePanelPower`. -/
structure PanelPowerResult where
  acPower : ℝ
  dcPower : ℝ
  cellTemp : ℝ
  losses : LossFactors

/-- `calculatePanelPower`: per-panel DC power scaled by the panel count,
fed through the inverter, with the clipped-away power reported as a
percentage of the DC input. -/
def calculatePanelPower (poa : POAIrradiance) (panel : PanelConfig)
    (ambientTemp panelCount : ℝ) (systemLosses : SystemLosses)
    (inverterConfig : InverterConfig) : PanelPowerResult :=
  let dc := calculateDCPower poa panel ambientTemp systemLosses
  let totalDCPower := dc.dcPower * panelCount
  let dcCapacity := panel.ratedPower * panelCount
  let invr := calculateInverterOutput totalDCPower inverterConfig dcCapacity
  let clippingPercentage :=
    if 0 < totalDCPower then invr.clippingLoss / totalDCPower * 100 else 0
  ⟨invr.acPower, totalDCPower, dc.cellTemp,
    ⟨dc.losses.temperature, dc.losses.incidenceAngle, dc.losses.spectral,
      dc.losses.systemTotal, clippingPercentage⟩⟩

/-! ## Claim theorem: inverter stage -/

/-- C9. Inverter stage: for every positive DC input power,
`calculateInverterOutput` multiplies the nominal efficiency by a
part-load multiplier (a two-segment linear ramp below 20% load, exactly 1
at or above 20%), forms the pre-clip AC power `dcPower · effEff`, clips
it to the inverter AC capacity (`dcCapacity / dcAcRatio` when
`acCapacity` is not explicitly given), reports the clipped-away power —
which `calculatePanelPower` exposes as a percentage of the DC input — and
hence always returns `acPower ≤ acCapacity`. -/
theorem claim_C9_inverter_stage (cfg : InverterConfig)
    (dcPower dcCapacity : ℝ) (hdc : 0 < dcPower) :
    (calculateInverterOutput dcPower cfg dcCapacity).efficiency =
      cfg.efficiency * partLoadMultiplier (dcPower / dcCapacity) ∧
    (∀ loadRatio : ℝ, loadRatio < 0.1 →
      partLoadMultiplier loadRatio = 0.85 + loadRatio * 1.5) ∧
    (∀ loadRatio : ℝ, 0.1 ≤ loadRatio → loadRatio < 0.2 →
      partLoadMultiplier loadRatio = 0.95 + loadRatio * 0.25) ∧
    (∀ loadRatio : ℝ, 0.2 ≤ loadRatio → partLoadMultiplier loadRatio = 1) ∧
    (calculateInverterOutput dcPower cfg dcCapacity).acPower =
      min (dcPower * (calculateInverterOutput dcPower cfg
        dcCapacity).efficiency) (inverterAcCapacity cfg dcCapacity) ∧
    (calculateInverterOutput dcPower cfg dcCapacity).clippingLoss =
      max 0 (dcPower * (calculateInverterOutput dcPower cfg
        dcCapacity).efficiency - inverterAcCapacity cfg dcCapacity) ∧
    (calculateInverterOutput dcPower cfg dcCapacity).acPower ≤
      inverterAcCapacity cfg dcCapacity ∧
    (cfg.acCapacity = 0 →
      inverterAcCapacity cfg dcCapacity = dcCapacity / cfg.dcAcRatio) ∧
    (∀ (poa : POAIrradiance) (panel : PanelConfig)
        (ambientTemp panelCount : ℝ) (systemLosses : SystemLosses),
      0 < (calculateDCPower poa panel ambientTemp systemLosses).dcPower *
        panelCount →
      (calculatePanelPower poa panel ambientTemp panelCount systemLosses
        cfg).losses.inverterClipping =
        (calculateInverterOutput
          ((calculateDCPower poa panel ambientTemp systemLosses).dcPower *
            panelCount) cfg (panel.ratedPower * panelCount)).clippingLoss /
        ((calculateDCPower poa panel ambientTemp systemLosses).dcPower *
          panelCount) * 100) := by
  have hnot : ¬ dcPower ≤ 0 := not_le.mpr hdc
  refine ⟨?_, ?_, ?_, ?_, ?_, ?_, ?_, ?_, ?_⟩
  · rw [calculateInverterOutput, if_neg hnot]
    by_cases h : inverterAcCapacity cfg dcCapacity <
        dcPower * (cfg.efficiency * partLoadMultiplier (dcPower / dcCapacity))
    · simp only [if_pos h]
    · simp only [if_neg h]
  · intro loadRatio h
    rw [partLoadMultiplier, if_pos h]
  · intro loadRatio h1 h2
    rw [partLoadMultiplier, if_neg (not_lt.mpr h1), if_pos h2]
  · intro loadRatio h
    rw [partLoadMultiplier, if_neg (by linarith : ¬ loadRatio < 0.1),
      if_neg (not_lt.mpr h)]
  · rw [calculateInverterOutput, if_neg hnot]
    by_cases h : inverterAcCapacity cfg dcCapacity <
        dcPower * (cfg.efficiency * partLoadMultiplier (dcPower / dcCapacity))
    · simp only [if_pos h]
      rw [min_eq_right h.le]
    · simp only [if_neg h]
      rw [min_eq_left (not_lt.mp h)]
  · rw [calculateInverterOutput, if_neg hnot]
    by_cases h : inverterAcCapacity cfg dcCapacity <
        dcPower * (cfg.efficiency * partLoadMultiplier (dcPower / dcCapacity))
    · simp only [if_pos h]
      rw [max_eq_right (by linarith [h.le])]
    · simp only [if_neg h]
      rw [max_eq_left (by linarith [not_lt.mp h])]
  · rw [calculateInverterOutput, if_neg hnot]
    by_cases h : inverterAcCapacity cfg dcCapacity <
        dcPower * (cfg.efficiency * partLoadMultiplier (dcPower / dcCapacity))
    · simp only [if_pos h]
      exact le_refl _
    · simp only [if_neg h]
      exact not_lt.mp h
  · intro h
    rw [inverterAcCapacity, if_pos h]
  · intro poa panel ambientTemp panelCount systemLosses hpos
    rw [calculatePanelPower]
    simp only [if_pos hpos]

/-- C9 witness: the inverter stage at a 100 W DC input into a 400 W array
with the default inverter configuration, and the clipping-percentage
report for a concrete POA/panel operating point. -/
theorem claim_C9_inverter_stage_witness :
    (calculateInverterOutput 100 DEFAULT_INVERTER_CONFIG 400).acPower ≤
      inverterAcCapacity DEFAULT_INVERTER_CONFIG 400 ∧
    partLoadMultiplier 0.5 = 1 ∧
    partLoadMultiplier 0.05 = 0.85 + 0.05 * 1.5 ∧
    partLoadMultiplier 0.15 = 0.95 + 0.15 * 0.25 ∧
    inverterAcCapacity DEFAULT_INVERTER_CONFIG 400 =
      400 / DEFAULT_INVERTER_CONFIG.dcAcRatio := by
  have h := claim_C9_inverter_stage DEFAULT_INVERTER_CONFIG 100 400
    (by norm_num)
  refine ⟨h.2.2.2.2.2.2.1, h.2.2.2.1 0.5 (by norm_num),
    h.2.1 0.05 (by norm_num), h.2.2.1 0.15 (by norm_num) (by norm_num),
    h.2.2.2.2.2.2.2.1 rfl⟩

/-! ## Solar position (`solarPosition.ts`)

The NOAA/Meeus solar-position algorithm.  A UTC `Date` is modelled by its
calendar components (`DateTimeU`); `Date.UTC(y, m, d)` instants are
modelled as real epoch milliseconds through the same proleptic-Gregorian
Julian-day-number arithmetic the source uses. -/

/-- The UTC calendar components `getUTCFullYear` / `getUTCMonth() + 1` /
`getUTCDate` / `getUTCHours` / `getUTCMinutes` / `getUTCSeconds` of a
`Date`. -/
structure DateTimeU where
  year : ℤ
  month : ℤ
  day : ℤ
  hour : ℤ
  minute : ℤ
  second : ℤ

/-- The integer Julian day number of `dateToJulianDay` (its `jdn`
variable); `Math.floor` of a ratio of integers is floor division. -/
def jdnInt (year month day : ℤ) : ℤ :=
  let a := Int.fdiv (14 - month) 12
  let y := year + 4800 - a
  let m := month + 12 * a - 3
  day + Int.fdiv (153 * m + 2) 5 + 365 * y + Int.fdiv y 4 - Int.fdiv y 100 +
    Int.fdiv y 400 - 32045

/-- `dateToJulianDay`. -/
def dateToJulianDay (d : DateTimeU) : ℝ :=
  (jdnInt d.year d.month d.day : ℝ) +
    ((d.hour : ℝ) + (d.minute : ℝ) / 60 + (d.second : ℝ) / 3600 - 12) / 24

/-- `julianCentury`. -/
def julianCentury (jd : ℝ) : ℝ := (jd - 2451545.0) / 36525.0

/-- Geometric mean longitude of the sun `L0`, normalized into [0, 360) by
`((L0 % 360) + 360) % 360`. -/
def meanLongSun (t : ℝ) : ℝ :=
  wrapMod (280.46646 + t * (36000.76983 + 0.0003032 * t)) 360

/-- Geometric mean anomaly of the sun `M`. -/
def meanAnomalySun (t : ℝ) : ℝ := 357.52911 + t * (35999.05029 - 0.0001537 * t)

/-- Eccentricity of Earth's orbit `e`. -/
def eccentricityEarthOrbit (t : ℝ) : ℝ :=
  0.016708634 - t * (0.000042037 + 0.0000001267 * t)

/-- Sun's equation of the center `C`. -/
def sunEqOfCenter (t : ℝ) : ℝ :=
  Real.sin (meanAnomalySun t * DEG_TO_RAD) *
    (1.914602 - t * (0.004817 + 0.000014 * t)) +
  Real.sin (2 * (meanAnomalySun t * DEG_TO_RAD)) * (0.019993 - 0.000101 * t) +
  Real.sin (3 * (meanAnomalySun t * DEG_TO_RAD)) * 0.000289

/-- Sun's true longitude. -/
def sunTrueLong (t : ℝ) : ℝ := meanLongSun t + sunEqOfCenter t

/-- Longitude of the ascending node `omega`. -/
def omegaSun (t : ℝ) : ℝ := 125.04 - 1934.136 * t

/-- Sun's apparent longitude. -/
def sunApparentLong (t : ℝ) : ℝ :=
  sunTrueLong t - 0.00569 - 0.00478 * Real.sin (omegaSun t * DEG_TO_RAD)

/-- Mean obliquity of the ecliptic. -/
def meanObliqEcliptic (t : ℝ) : ℝ :=
  23 + (26 + (21.448 - t * (46.8150 + t * (0.00059 - t * 0.001813))) / 60) / 60

/-- Obliquity correction. -/
def obliqCorrection (t : ℝ) : ℝ :=
  meanObliqEcliptic t + 0.00256 * Real.cos (omegaSun t * DEG_TO_RAD)

/-- Sun's declination (degrees). -/
def sunDeclination (t : ℝ) : ℝ :=
  Real.arcsin (Real.sin (obliqCorrection t * DEG_TO_RAD) *
    Real.sin (sunApparentLong t * DEG_TO_RAD)) * RAD_TO_DEG

/-- The `y = tan²(obliqCorr/2)` auxiliary of the equation of time. -/
def yObliq (t : ℝ) : ℝ := Real.tan (obliqCorrection t * DEG_TO_RAD / 2) ^ (2 : ℕ)

/-- Equation of time (minutes). -/
def equationOfTime (t : ℝ) : ℝ :=
  4 * RAD_TO_DEG *
    (yObliq t * Real.sin (2 * (meanLongSun t * DEG_TO_RAD)) -
     2 * eccentricityEarthOrbit t * Real.sin (meanAnomalySun t * DEG_TO_RAD) +
     4 * eccentricityEarthOrbit t * yObliq t *
       Real.sin (meanAnomalySun t * DEG_TO_RAD) *
       Real.cos (2 * (meanLongSun t * DEG_TO_RAD)) -
     0.5 * yObliq t * yObliq t *
       Real.sin (4 * (meanLongSun t * DEG_TO_RAD)) -
     1.25 * eccentricityEarthOrbit t * eccentricityEarthOrbit t *
       Real.sin (2 * (meanAnomalySun t * DEG_TO_RAD)))

/-- `getUTCHours()*60 + getUTCMinutes() + getUTCSeconds()/60`. -/
def utcMinutesOf (d : DateTimeU) : ℝ :=
  (d.hour : ℝ) * 60 + (d.minute : ℝ) + (d.second : ℝ) / 60

/-- True solar time (minutes), normalized into [0, 1440) by
`((t % 1440) + 1440) % 1440`. -/
def trueSolarTimeOf (d : DateTimeU) (longitude : ℝ) : ℝ :=
  wrapMod (utcMinutesOf d +
    equationOfTime (julianCentury (dateToJulianDay d)) + 4 * longitude) 1440

/-- Hour angle (degrees): `trueSolarTime / 4 - 180`, shifted by 360 when
below -180. -/
def hourAngleOf (d : DateTimeU) (longitude : ℝ) : ℝ :=
  if trueSolarTimeOf d longitude / 4 - 180 < -180 then
    trueSolarTimeOf d longitude / 4 - 180 + 360
  else trueSolarTimeOf d longitude / 4 - 180

/-- Cosine of the solar zenith angle (spherical-triangle formula,
unclamped). -/
def cosZenithOf (d : DateTimeU) (latitude longitude : ℝ) : ℝ :=
  Real.sin (latitude * DEG_TO_RAD) *
    Real.sin (sunDeclination (julianCentury (dateToJulianDay d)) *
      DEG_TO_RAD) +
  Real.cos (latitude * DEG_TO_RAD) *
    Real.cos (sunDeclination (julianCentury (dateToJulianDay d)) *
      DEG_TO_RAD) *
    Real.cos (hourAngleOf d longitude * DEG_TO_RAD)

/-- Solar zenith angle (degrees), via the clamped arc-cosine. -/
def zenithOf (d : DateTimeU) (latitude longitude : ℝ) : ℝ :=
  Real.arccos (max (-1) (min 1 (cosZenithOf d latitude longitude))) *
    RAD_TO_DEG

/-- Solar azimuth angle (degrees clockwise from north): 180/0 when the
zenith sine is tiny (sun essentially at the zenith or nadir), otherwise
the clamped arc-cosine branch selected by the sign of the hour angle and
normalized with the JavaScript `% 360`. -/
def azimuthOf (d : DateTimeU) (latitude longitude : ℝ) : ℝ :=
  if |Real.sin (zenithOf d latitude longitude * DEG_TO_RAD)| < 0.0001 then
    (if 0 ≤ latitude then 180 else 0)
  else
    let cosAzimuth :=
      (Real.sin (latitude * DEG_TO_RAD) * cosZenithOf d latitude longitude -
        Real.sin (sunDeclination (julianCentury (dateToJulianDay d)) *
          DEG_TO_RAD)) /
      (Real.cos (latitude * DEG_TO_RAD) *
        Real.sin (zenithOf d latitude longitude * DEG_TO_RAD))
    let azimuthAngle :=
      Real.arccos (max (-1) (min 1 cosAzimuth)) * RAD_TO_DEG
    if 0 < hourAngleOf d longitude then jsMod (azimuthAngle + 180) 360
    else jsMod (540 - azimuthAngle) 360

/-- The arc-cosine argument of `calculateHourAngle`:
`cos(z)/(cos(lat)·cos(dec)) - tan(lat)·tan(dec)`. -/
def cosHourAngle (latitude declination zenithAngle : ℝ) : ℝ :=
  Real.cos (zenithAngle * DEG_TO_RAD) /
    (Real.cos (latitude * DEG_TO_RAD) * Real.cos (declination * DEG_TO_RAD)) -
  Real.tan (latitude * DEG_TO_RAD) * Real.tan (declination * DEG_TO_RAD)

/-- `calculateHourAngle`: clamped to 0 (sun never reaches the target
zenith, polar night) when the cosine exceeds 1, and to 180 (sun never
drops below it, midnight sun) when it is below -1. -/
def calculateHourAngle (latitude declination zenithAngle : ℝ) : ℝ :=
  if 1 < cosHourAngle latitude declination zenithAngle then 0
  else if cosHourAngle latitude declination zenithAngle < -1 then 180
  else Real.arccos (cosHourAngle latitude declination zenithAngle) *
    RAD_TO_DEG

/-- `Date.UTC(year, month0, day)` at midnight, in epoch milliseconds;
expressed through the same Julian-day-number arithmetic as
`dateToJulianDay` (JDN 2440588 is 1970-01-01). -/
def epochDayMs (d : DateTimeU) : ℝ :=
  ((jdnInt d.year d.month d.day - 2440588 : ℤ) : ℝ) * 86400000

/-- Solar noon in minutes from midnight UTC: `720 - 4·longitude - eqTime`. -/
def solarNoonMinutes (d : DateTimeU) (longitude : ℝ) : ℝ :=
  720 - 4 * longitude - equationOfTime (julianCentury (dateToJulianDay d))

/-- Sunrise/sunset hour angle at zenith 90.833° (refraction-corrected). -/
def haRiseOf (d : DateTimeU) (latitude : ℝ) : ℝ :=
  calculateHourAngle latitude
    (sunDeclination (julianCentury (dateToJulianDay d))) 90.833

/-- Civil-twilight hour angle at zenith 96°. -/
def haCivilOf (d : DateTimeU) (latitude : ℝ) : ℝ :=
  calculateHourAngle latitude
    (sunDeclination (julianCentury (dateToJulianDay d))) 96

/-- Sunrise instant (epoch ms): `noon - 4·haRise` minutes. -/
def sunriseMs (d : DateTimeU) (latitude longitude : ℝ) : ℝ :=
  epochDayMs d + (solarNoonMinutes d longitude - 4 * haRiseOf d latitude) *
    60000

/-- Sunset instant (epoch ms): `noon + 4·haRise` minutes. -/
def sunsetMs (d : DateTimeU) (latitude longitude : ℝ) : ℝ :=
  epochDayMs d + (solarNoonMinutes d longitude + 4 * haRiseOf d latitude) *
    60000

/-- Solar-noon instant (epoch ms). -/
def solarNoonMs (d : DateTimeU) (longitude : ℝ) : ℝ :=
  epochDayMs d + solarNoonMinutes d longitude * 60000

/-- Morning civil-twilight start (epoch ms). -/
def twilightStartMs (d : DateTimeU) (latitude longitude : ℝ) : ℝ :=
  epochDayMs d + (solarNoonMinutes d longitude - 4 * haCivilOf d latitude) *
    60000

/-- Evening civil-twilight end (epoch ms). -/
def twilightEndMs (d : DateTimeU) (latitude longitude : ℝ) : ℝ :=
  epochDayMs d + (solarNoonMinutes d longitude + 4 * haCivilOf d latitude) *
    60000

/-- The result record of `calculateSolarPosition` (`SolarPosition` in
`types.ts`); instants are epoch milliseconds. -/
structure SolarPosition where
  elevation : ℝ
  azimuth : ℝ
  zenith : ℝ
  declination : ℝ
  hourAngle : ℝ
  sunrise : ℝ
  sunset : ℝ
  solarNoon : ℝ
  isNight : Bool
  twilightStart : ℝ
  twilightEnd : ℝ

/-- `calculateSolarPosition` (NOAA solar position algorithm). -/
def calculateSolarPosition (d : DateTimeU) (latitude longitude : ℝ) :
    SolarPosition :=
  { elevation := 90 - zenithOf d latitude longitude,
    azimuth := azimuthOf d latitude longitude,
    zenith := zenithOf d latitude longitude,
    declination := sunDeclination (julianCentury (dateToJulianDay d)),
    hourAngle := hourAngleOf d longitude,
    sunrise := sunriseMs d latitude longitude,
    sunset := sunsetMs d latitude longitude,
    solarNoon := solarNoonMs d longitude,
    isNight := if 90 - zenithOf d latitude longitude < 0 then true else false,
    twilightStart := twilightStartMs d latitude longitude,
    twilightEnd := twilightEndMs d latitude longitude }

lemma calculateHourAngle_nonneg (latitude declination zenithAngle : ℝ) :
    0 ≤ calculateHourAngle latitude declination zenithAngle := by
  rw [calculateHourAngle]
  by_cases h1 : 1 < cosHourAngle latitude declination zenithAngle
  · rw [if_pos h1]
  · rw [if_neg h1]
    by_cases h2 : cosHourAngle latitude declination zenithAngle < -1
    · rw [if_pos h2]; norm_num
    · rw [if_neg h2]
      apply mul_nonneg (Real.arccos_nonneg _)
      rw [RAD_TO_DEG]
      positivity

lemma arccos_deg_mem (x : ℝ) :
    0 ≤ Real.arccos (max (-1) (min 1 x)) * RAD_TO_DEG ∧
    Real.arccos (max (-1) (min 1 x)) * RAD_TO_DEG ≤ 180 := by
  have hpi := Real.pi_pos
  constructor
  · apply mul_nonneg (Real.arccos_nonneg _)
    rw [RAD_TO_DEG]; positivity
  · have h1 : Real.arccos (max (-1) (min 1 x)) ≤ Real.pi :=
      Real.arccos_le_pi _
    rw [RAD_TO_DEG]
    calc Real.arccos (max (-1) (min 1 x)) * (180 / Real.pi) ≤
          Real.pi * (180 / Real.pi) := by
          apply mul_le_mul_of_nonneg_right h1; positivity
      _ = 180 := by field_simp

/-! ## Claim theorem: solar-position invariants -/

/-- C4. Solar-position invariants: for every date and coordinate,
`calculateSolarPosition` returns `zenith + elevation = 90` exactly, an
azimuth in [0, 360), and `sunrise ≤ solarNoon ≤ sunset`; the hour angle
used for sunrise/sunset is clamped to 0 when `cos(HA) > 1` (the sun never
reaches the target zenith that day) and to 180 when `cos(HA) < -1` (the
sun never drops below it), so polar day and polar night are represented
as degenerate values of total functions rather than raised errors. -/
theorem claim_C4_solar_position_invariants (d : DateTimeU)
    (latitude longitude : ℝ) :
    (calculateSolarPosition d latitude longitude).zenith +
      (calculateSolarPosition d latitude longitude).elevation = 90 ∧
    0 ≤ (calculateSolarPosition d latitude longitude).azimuth ∧
    (calculateSolarPosition d latitude longitude).azimuth < 360 ∧
    (calculateSolarPosition d latitude longitude).sunrise ≤
      (calculateSolarPosition d latitude longitude).solarNoon ∧
    (calculateSolarPosition d latitude longitude).solarNoon ≤
      (calculateSolarPosition d latitude longitude).sunset ∧
    (∀ lat dec za : ℝ, 1 < cosHourAngle lat dec za →
      calculateHourAngle lat dec za = 0) ∧
    (∀ lat dec za : ℝ, cosHourAngle lat dec za < -1 →
      calculateHourAngle lat dec za = 180) := by
  have hha := calculateHourAngle_nonneg latitude
    (sunDeclination (julianCentury (dateToJulianDay d))) 90.833
  have haz : 0 ≤ azimuthOf d latitude longitude ∧
      azimuthOf d latitude longitude < 360 := by
    rw [azimuthOf]
    by_cases h : |Real.sin (zenithOf d latitude longitude * DEG_TO_RAD)| <
        0.0001
    · rw [if_pos h]
      by_cases hl : 0 ≤ latitude
      · rw [if_pos hl]; norm_num
      · rw [if_neg hl]; norm_num
    · rw [if_neg h]
      set cosAzimuth :=
        (Real.sin (latitude * DEG_TO_RAD) * cosZenithOf d latitude longitude -
          Real.sin (sunDeclination (julianCentury (dateToJulianDay d)) *
            DEG_TO_RAD)) /
        (Real.cos (latitude * DEG_TO_RAD) *
          Real.sin (zenithOf d latitude longitude * DEG_TO_RAD))
      obtain ⟨ha0, ha180⟩ := arccos_deg_mem cosAzimuth
      by_cases hh : 0 < hourAngleOf d longitude
      · rw [if_pos hh]
        exact ⟨jsMod_nonneg (by linarith) (by norm_num),
          jsMod_lt (by linarith) (by norm_num)⟩
      · rw [if_neg hh]
        exact ⟨jsMod_nonneg (by linarith) (by norm_num),
          jsMod_lt (by linarith) (by norm_num)⟩
  have hr : 0 ≤ haRiseOf d latitude := hha
  refine ⟨by simp [calculateSolarPosition], haz.1, haz.2, ?_, ?_, ?_, ?_⟩
  · show sunriseMs d latitude longitude ≤ solarNoonMs d longitude
    rw [sunriseMs, solarNoonMs]
    nlinarith [hr]
  · show solarNoonMs d longitude ≤ sunsetMs d latitude longitude
    rw [sunsetMs, solarNoonMs]
    nlinarith [hr]
  · intro lat dec za hgt
    rw [calculateHourAngle, if_pos hgt]
  · intro lat dec za hlt
    rw [calculateHourAngle, if_neg (by linarith : ¬ 1 < cosHourAngle lat dec za),
      if_pos hlt]

lemma cosHourAngle_at_pole_day : cosHourAngle 60 0 0 = 2 := by
  have h60 : (60 : ℝ) * DEG_TO_RAD = Real.pi / 3 := by
    rw [DEG_TO_RAD]; ring
  have h0 : (0 : ℝ) * DEG_TO_RAD = 0 := by ring
  rw [cosHourAngle, h60, h0, Real.cos_zero, Real.tan_zero,
    Real.cos_pi_div_three]
  norm_num

lemma cosHourAngle_at_pole_night : cosHourAngle 60 0 180 = -2 := by
  have h60 : (60 : ℝ) * DEG_TO_RAD = Real.pi / 3 := by
    rw [DEG_TO_RAD]; ring
  have h0 : (0 : ℝ) * DEG_TO_RAD = 0 := by ring
  have h180 : (180 : ℝ) * DEG_TO_RAD = Real.pi := by
    rw [DEG_TO_RAD]; ring
  rw [cosHourAngle, h60, h0, h180, Real.cos_pi, Real.tan_zero,
    Real.cos_pi_div_three]
  norm_num

/-- C4 witness: the invariants at 2024-01-15 12:00 UTC, San Francisco,
together with both polar clamp branches of `calculateHourAngle` exercised
at concrete arguments where `cos(HA)` evaluates to 2 and to -2. -/
theorem claim_C4_solar_position_invariants_witness :
    (calculateSolarPosition ⟨2024, 1, 15, 12, 0, 0⟩ 37.7749
        (-122.4194)).zenith +
      (calculateSolarPosition ⟨2024, 1, 15, 12, 0, 0⟩ 37.7749
        (-122.4194)).elevation = 90 ∧
    0 ≤ (calculateSolarPosition ⟨2024, 1, 15, 12, 0, 0⟩ 37.7749
        (-122.4194)).azimuth ∧
    (calculateSolarPosition ⟨2024, 1, 15, 12, 0, 0⟩ 37.7749
        (-122.4194)).azimuth < 360 ∧
    (calculateSolarPosition ⟨2024, 1, 15, 12, 0, 0⟩ 37.7749
        (-122.4194)).sunrise ≤
      (calculateSolarPosition ⟨2024, 1, 15, 12, 0, 0⟩ 37.7749
        (-122.4194)).solarNoon ∧
    calculateHourAngle 60 0 0 = 0 ∧
    calculateHourAngle 60 0 180 = 180 := by
  have h := claim_C4_solar_position_invariants ⟨2024, 1, 15, 12, 0, 0⟩
    37.7749 (-122.4194)
  refine ⟨h.1, h.2.1, h.2.2.1, h.2.2.2.1, ?_, ?_⟩
  · exact h.2.2.2.2.2.1 60 0 0 (by rw [cosHourAngle_at_pole_day]; norm_num)
  · exact h.2.2.2.2.2.2 60 0 180
      (by rw [cosHourAngle_at_pole_night]; norm_num)

/-! ## Daily power profile (`panelOutput.ts`)

`calculateDailyPowerOutput` walks hours 0..23 of the supplied 24-entry
arrays; the arrays are modelled as functions on `ℕ` read at indices
0..23.  The per-hour `HourlyData` list the source accumulates is consumed
only by the presentation layer and is not part of the summary fields the
claims are about. -/

/-- The POA irradiance computed for one hour slot of the daily loop. -/
def hourlyPOA (hourlyIrradiance : ℕ → Irradiance)
    (hourlyPositions : ℕ → SolarPosition) (orientation : PanelOrientation)
    (albedo : ℝ) (hour : ℕ) : POAIrradiance :=
  calculatePOAIrradiance (hourlyIrradiance hour) (hourlyPositions hour).zenith
    (hourlyPositions hour).azimuth orientation.tilt orientation.azimuth albedo

/-- The AC power computed for one hour slot of the daily loop. -/
def hourlyAcPower (hourlyIrradiance : ℕ → Irradiance)
    (hourlyPositions : ℕ → SolarPosition) (panel : PanelConfig)
    (orientation : PanelOrientation) (panelCount ambientTemp albedo : ℝ)
    (systemLosses : SystemLosses) (inverterConfig : InverterConfig)
    (hour : ℕ) : ℝ :=
  (calculatePanelPower
    (hourlyPOA hourlyIrradiance hourlyPositions orientation albedo hour)
    panel ambientTemp panelCount systemLosses inverterConfig).acPower

/-- The peak/energy accumulator of `calculateDailyPowerOutput` after
processing hours `0..n-1`: `(peakPower, peakHour, totalEnergy)`, started
at `(0, 12, 0)` and updated by
`if (acPower > peakPower) { peakPower = acPower; peakHour = hour }` and
`totalEnergy += acPower`. -/
def dailyLoop (power : ℕ → ℝ) : ℕ → ℝ × ℕ × ℝ
  | 0 => (0, 12, 0)
  | n + 1 =>
    ((if (dailyLoop power n).1 < power n then power n
      else (dailyLoop power n).1),
     (if (dailyLoop power n).1 < power n then n
      else (dailyLoop power n).2.1),
     (dailyLoop power n).2.2 + power n)

/-- The summary fields of `PowerOutput` (`types.ts`). -/
structure PowerOutput where
  instantPower : ℝ
  peakPower : ℝ
  peakHour : ℕ
  dailyEnergy : ℝ
  capacityFactor : ℝ
  performanceRatio : ℝ

/-- `calculateDailyPowerOutput`. -/
def calculateDailyPowerOutput (hourlyIrradiance : ℕ → Irradiance)
    (hourlyPositions : ℕ → SolarPosition) (panel : PanelConfig)
    (orientation : PanelOrientation) (panelCount ambientTemp albedo : ℝ)
    (systemLosses : SystemLosses) (inverterConfig : InverterConfig) :
    PowerOutput :=
  let s := dailyLoop (hourlyAcPower hourlyIrradiance hourlyPositions panel
    orientation panelCount ambientTemp albedo systemLosses inverterConfig) 24
  let ratedCapacity := panel.ratedPower * panelCount
  let totalPOA := ∑ h ∈ Finset.range 24,
    (hourlyPOA hourlyIrradiance hourlyPositions orientation albedo h).total
  let theoreticalEnergy := totalPOA / 1000 * ratedCapacity
  { instantPower := 0,
    peakPower := s.1,
    peakHour := s.2.1,
    dailyEnergy := s.2.2,
    capacityFactor := s.2.2 / (ratedCapacity * 24),
    performanceRatio :=
      if 0 < theoreticalEnergy then s.2.2 / theoreticalEnergy else 0 }

/-- Invariant of the daily accumulator: the energy slot is the running
sum, the peak slot bounds every processed hour from above, and the peak
hour is either the untouched initializer (12, with a zero peak) or the
first hour that strictly exceeded everything before it. -/
lemma dailyLoop_spec (power : ℕ → ℝ) (n : ℕ) :
    (dailyLoop power n).2.2 = ∑ h ∈ Finset.range n, power h ∧
    0 ≤ (dailyLoop power n).1 ∧
    (∀ h < n, power h ≤ (dailyLoop power n).1) ∧
    ((dailyLoop power n).1 = 0 ∧ (dailyLoop power n).2.1 = 12 ∨
      ((dailyLoop power n).2.1 < n ∧
       power (dailyLoop power n).2.1 = (dailyLoop power n).1 ∧
       0 < (dailyLoop power n).1 ∧
       ∀ h < (dailyLoop power n).2.1, power h < (dailyLoop power n).1)) := by
  induction n with
  | zero =>
    refine ⟨by simp [dailyLoop], le_refl _, ?_, Or.inl ⟨rfl, rfl⟩⟩
    intro h hh
    exact absurd hh (Nat.not_lt_zero h)
  | succ n ih =>
    obtain ⟨ih1, ih2, ih3, ih4⟩ := ih
    by_cases hlt : (dailyLoop power n).1 < power n
    · have e1 : (dailyLoop power (n + 1)).1 = power n := by
        rw [dailyLoop, if_pos hlt]
      have e2 : (dailyLoop power (n + 1)).2.1 = n := by
        rw [dailyLoop]
        simp [hlt]
      have e3 : (dailyLoop power (n + 1)).2.2 =
          (dailyLoop power n).2.2 + power n := by
        rw [dailyLoop]
      refine ⟨?_, ?_, ?_, Or.inr ?_⟩
      · rw [e3, ih1, Finset.sum_range_succ]
      · rw [e1]; linarith
      · intro h hh
        rw [e1]
        rcases Nat.lt_succ_iff_lt_or_eq.mp hh with h' | h'
        · exact le_of_lt (lt_of_le_of_lt (ih3 h h') hlt)
        · rw [h']
      · refine ⟨?_, ?_, ?_, ?_⟩
        · rw [e2]; exact Nat.lt_succ_self n
        · rw [e1, e2]
        · rw [e1]; linarith
        · intro h hh
          rw [e2] at hh
          rw [e1]
          exact lt_of_le_of_lt (ih3 h hh) hlt
    · have e1 : (dailyLoop power (n + 1)).1 = (dailyLoop power n).1 := by
        rw [dailyLoop, if_neg hlt]
      have e2 : (dailyLoop power (n + 1)).2.1 = (dailyLoop power n).2.1 := by
        rw [dailyLoop]
        simp [hlt]
      have e3 : (dailyLoop power (n + 1)).2.2 =
          (dailyLoop power n).2.2 + power n := by
        rw [dailyLoop]
      refine ⟨?_, ?_, ?_, ?_⟩
      · rw [e3, ih1, Finset.sum_range_succ]
      · rw [e1]; exact ih2
      · intro h hh
        rw [e1]
        rcases Nat.lt_succ_iff_lt_or_eq.mp hh with h' | h'
        · exact ih3 h h'
        · rw [h']; exact not_lt.mp hlt
      · rcases ih4 with h4 | ⟨hh1, hh2, hh3, hh4⟩
        · exact Or.inl ⟨by rw [e1]; exact h4.1, by rw [e2]; exact h4.2⟩
        · refine Or.inr ⟨?_, ?_, ?_, ?_⟩
          · rw [e2]; exact Nat.lt_succ_of_lt hh1
          · rw [e1, e2]; exact hh2
          · rw [e1]; exact hh3
          · intro h hh
            rw [e2] at hh
            rw [e1]
            exact hh4 h hh

/-! ## Claim theorems: day-profile assembly -/

/-- Night fixture: the all-zero night irradiance record. -/
def nightIrr : ℕ → Irradiance := fun _ => ⟨0, 0, 0, 1361, ⊤, 0⟩

/-- Night fixture: a solar position with the sun 10° below the horizon. -/
def nightPos : ℕ → SolarPosition :=
  fun _ => ⟨-10, 180, 100, -21, 0, 0, 0, 0, true, 0, 0⟩

/-- Fixture panel: 400 W, NOCT 45 °C, −0.4 %/°C. -/
def demoPanel : PanelConfig := ⟨400, 45, -0.4⟩

/-- Fixture orientation used by the night counterexample. -/
def nightOrient : PanelOrientation := ⟨30, 180⟩

lemma night_power_zero (h : ℕ) :
    hourlyAcPower nightIrr nightPos demoPanel nightOrient 1 20 0.2
      DEFAULT_SYSTEM_LOSSES DEFAULT_INVERTER_CONFIG h = 0 := by
  have hpoa : hourlyPOA nightIrr nightPos nightOrient 0.2 h =
      ⟨0, 0, 0, 0, 90, 0⟩ := by
    rw [hourlyPOA, nightIrr, nightPos]
    rw [calculatePOAIrradiance, if_pos (Or.inl (by norm_num))]
    rw [if_pos (by norm_num : (90 : ℝ) ≤ 100)]
  rw [hourlyAcPower, hpoa]
  rw [calculatePanelPower]
  have hdc : calculateDCPower ⟨0, 0, 0, 0, 90, 0⟩ demoPanel 20
      DEFAULT_SYSTEM_LOSSES =
      ⟨0, 20, ⟨1, 1, 1, calculateSystemLossFactor DEFAULT_SYSTEM_LOSSES, 0⟩⟩ := by
    rw [calculateDCPower, if_pos (by norm_num : (0 : ℝ) ≤ 0)]
  simp only [hdc]
  norm_num [calculateInverterOutput]

lemma dailyLoop_of_zero (power : ℕ → ℝ) (hp : ∀ h, power h = 0) :
    ∀ n, dailyLoop power n = (0, 12, 0) := by
  intro n
  induction n with
  | zero => rfl
  | succ n ih =>
    rw [dailyLoop, ih, hp n]
    norm_num

/-- C10 counterexample: on a polar-night day every hourly AC power is 0,
so the maximum hourly AC power (0) is first attained at hour 0 — but the
returned `peakHour` is the untouched initializer 12, because the strict
`acPower > peakPower` update never fires.  The claim that `peakHour` is
always the first hour index attaining the maximum is therefore false. -/
theorem claim_C10_counterexample :
    (calculateDailyPowerOutput nightIrr nightPos demoPanel nightOrient 1 20
      0.2 DEFAULT_SYSTEM_LOSSES DEFAULT_INVERTER_CONFIG).peakHour = 12 ∧
    (calculateDailyPowerOutput nightIrr nightPos demoPanel nightOrient 1 20
      0.2 DEFAULT_SYSTEM_LOSSES DEFAULT_INVERTER_CONFIG).peakPower = 0 ∧
    hourlyAcPower nightIrr nightPos demoPanel nightOrient 1 20 0.2
      DEFAULT_SYSTEM_LOSSES DEFAULT_INVERTER_CONFIG 0 = 0 := by
  have hz := dailyLoop_of_zero
    (hourlyAcPower nightIrr nightPos demoPanel nightOrient 1 20 0.2
      DEFAULT_SYSTEM_LOSSES DEFAULT_INVERTER_CONFIG) night_power_zero 24
  refine ⟨?_, ?_, night_power_zero 0⟩
  · show (dailyLoop _ 24).2.1 = 12
    rw [hz]
  · show (dailyLoop _ 24).1 = 0
    rw [hz]

/-- C10 (amended). Day-profile assembly: `dailyEnergy` is the sum of the
24 hourly AC powers and `capacityFactor = dailyEnergy /
(ratedPower · panelCount · 24)`; `peakPower` bounds every hourly AC power
and is nonnegative; whenever some hour produces positive AC power,
`peakHour` is the first hour index attaining `peakPower` (ties resolved
to the first occurrence); when no hour produces positive power,
`peakPower` is 0 and `peakHour` stays at its initializer 12. -/
theorem claim_C10_day_profile (hourlyIrradiance : ℕ → Irradiance)
    (hourlyPositions : ℕ → SolarPosition) (panel : PanelConfig)
    (orientation : PanelOrientation) (panelCount ambientTemp albedo : ℝ)
    (systemLosses : SystemLosses) (inverterConfig : InverterConfig) :
    (calculateDailyPowerOutput hourlyIrradiance hourlyPositions panel
        orientation panelCount ambientTemp albedo systemLosses
        inverterConfig).dailyEnergy =
      ∑ h ∈ Finset.range 24, hourlyAcPower hourlyIrradiance hourlyPositions
        panel orientation panelCount ambientTemp albedo systemLosses
        inverterConfig h ∧
    (calculateDailyPowerOutput hourlyIrradiance hourlyPositions panel
        orientation panelCount ambientTemp albedo systemLosses
        inverterConfig).capacityFactor =
      (calculateDailyPowerOutput hourlyIrradiance hourlyPositions panel
        orientation panelCount ambientTemp albedo systemLosses
        inverterConfig).dailyEnergy /
        (panel.ratedPower * panelCount * 24) ∧
    0 ≤ (calculateDailyPowerOutput hourlyIrradiance hourlyPositions panel
        orientation panelCount ambientTemp albedo systemLosses
        inverterConfig).peakPower ∧
    (∀ h < 24, hourlyAcPower hourlyIrradiance hourlyPositions panel
        orientation panelCount ambientTemp albedo systemLosses
        inverterConfig h ≤
      (calculateDailyPowerOutput hourlyIrradiance hourlyPositions panel
        orientation panelCount ambientTemp albedo systemLosses
        inverterConfig).peakPower) ∧
    ((∃ h < 24, 0 < hourlyAcPower hourlyIrradiance hourlyPositions panel
        orientation panelCount ambientTemp albedo systemLosses
        inverterConfig h) →
      (calculateDailyPowerOutput hourlyIrradiance hourlyPositions panel
        orientation panelCount ambientTemp albedo systemLosses
        inverterConfig).peakHour < 24 ∧
      hourlyAcPower hourlyIrradiance hourlyPositions panel orientation
        panelCount ambientTemp albedo systemLosses inverterConfig
        ((calculateDailyPowerOutput hourlyIrradiance hourlyPositions panel
          orientation panelCount ambientTemp albedo systemLosses
          inverterConfig).peakHour) =
        (calculateDailyPowerOutput hourlyIrradiance hourlyPositions panel
          orientation panelCount ambientTemp albedo systemLosses
          inverterConfig).peakPower ∧
      (∀ h < (calculateDailyPowerOutput hourlyIrradiance hourlyPositions
          panel orientation panelCount ambientTemp albedo systemLosses
          inverterConfig).peakHour,
        hourlyAcPower hourlyIrradiance hourlyPositions panel orientation
          panelCount ambientTemp albedo systemLosses inverterConfig h <
        (calculateDailyPowerOutput hourlyIrradiance hourlyPositions panel
          orientation panelCount ambientTemp albedo systemLosses
          inverterConfig).peakPower)) ∧
    ((∀ h < 24, hourlyAcPower hourlyIrradiance hourlyPositions panel
        orientation panelCount ambientTemp albedo systemLosses
        inverterConfig h ≤ 0) →
      (calculateDailyPowerOutput hourlyIrradiance hourlyPositions panel
        orientation panelCount ambientTemp albedo systemLosses
        inverterConfig).peakPower = 0 ∧
      (calculateDailyPowerOutput hourlyIrradiance hourlyPositions panel
        orientation panelCount ambientTemp albedo systemLosses
        inverterConfig).peakHour = 12) := by
  set power := hourlyAcPower hourlyIrradiance hourlyPositions panel
    orientation panelCount ambientTemp albedo systemLosses inverterConfig
    with hpow
  obtain ⟨s1, s2, s3, s4⟩ := dailyLoop_spec power 24
  refine ⟨s1, rfl, s2, s3, ?_, ?_⟩
  · rintro ⟨h, hh, hp⟩
    rcases s4 with ⟨hz, _⟩ | ⟨h1, h2, h3, h4⟩
    · exact absurd (lt_of_lt_of_le hp (s3 h hh)) (by rw [hz]; exact lt_irrefl 0)
    · exact ⟨h1, h2, h4⟩
  · intro hall
    rcases s4 with ⟨hz, h12⟩ | ⟨h1, h2, h3, _⟩
    · exact ⟨hz, h12⟩
    · exact absurd h3 (not_lt.mpr (by rw [← h2]; exact hall _ h1))

/-- Daytime fixture: 1000 W/m² GHI, purely via ground reflection onto a
vertical panel (no direct or diffuse component), finite air mass 2. -/
def demoIrr : ℕ → Irradiance :=
  fun _ => ⟨1000, 0, 0, 1361, ((2 : ℝ) : EReal), 0.8⟩

/-- Daytime fixture: the sun at the zenith. -/
def demoPos : ℕ → SolarPosition :=
  fun _ => ⟨90, 180, 0, 0, 0, 0, 0, 0, false, 0, 0⟩

/-- Daytime fixture: a vertical, south-facing panel. -/
def demoOrient : PanelOrientation := ⟨90, 180⟩

lemma demo_aoi : calculateAngleOfIncidence 0 180 90 180 = 90 := by
  have h0 : (0 : ℝ) * DEG_TO_RAD = 0 := by ring
  have h90 : (90 : ℝ) * DEG_TO_RAD = Real.pi / 2 := by
    rw [DEG_TO_RAD]; ring
  rw [calculateAngleOfIncidence, h0, h90, Real.cos_zero, Real.sin_zero,
    Real.cos_pi_div_two]
  norm_num [Real.arccos_zero]
  field_simp
  ring

lemma demo_poa (h : ℕ) :
    hourlyPOA demoIrr demoPos demoOrient 0.2 h = ⟨100, 0, 0, 100, 90, 100⟩ := by
  have h90 : (90 : ℝ) * DEG_TO_RAD = Real.pi / 2 := by
    rw [DEG_TO_RAD]; ring
  have hbeam : poaBeam ⟨1000, 0, 0, 1361, ((2 : ℝ) : EReal), 0.8⟩ 90 = 0 := by
    rw [poaBeam, if_neg]
    rintro ⟨-, hdni⟩
    norm_num at hdni
  have hdiff : poaDiffuse ⟨1000, 0, 0, 1361, ((2 : ℝ) : EReal), 0.8⟩ 0 90
      90 = 0 := by
    rw [poaDiffuse, if_neg]
    intro hdhi
    norm_num at hdhi
  have hrefl : poaReflected ⟨1000, 0, 0, 1361, ((2 : ℝ) : EReal), 0.8⟩ 90
      0.2 = 100 := by
    rw [poaReflected]
    show (1000 : ℝ) * 0.2 * ((1 - Real.cos (90 * DEG_TO_RAD)) / 2) = 100
    rw [h90, Real.cos_pi_div_two]
    norm_num
  have hiam : calculateIAM 90 0.05 = 0 := by
    rw [calculateIAM, if_pos (le_refl _)]
  simp only [hourlyPOA, demoIrr, demoPos, demoOrient]
  rw [calculatePOAIrradiance, if_neg (by norm_num)]
  simp only [demo_aoi, hbeam, hdiff, hrefl, hiam]
  norm_num

lemma demo_dc_pos :
    0 < (calculateDCPower ⟨100, 0, 0, 100, 90, 100⟩ demoPanel 20
      DEFAULT_SYSTEM_LOSSES).dcPower := by
  rw [calculateDCPower, if_neg (by norm_num :
    ¬ (⟨100, 0, 0, 100, 90, 100⟩ : POAIrradiance).effectiveIrradiance ≤ 0)]
  show 0 < max 0 _
  have ht : (0.5 : ℝ) ≤ calculateTempDerating
      (calculateCellTemperature 20 (100 : ℝ) demoPanel.noct 1)
      demoPanel.tempCoefficient 25 := le_max_left _ _
  have ht0 : (0 : ℝ) < calculateTempDerating
      (calculateCellTemperature 20 (100 : ℝ) demoPanel.noct 1)
      demoPanel.tempCoefficient 25 := by linarith
  have hs : (0 : ℝ) < calculateSystemLossFactor DEFAULT_SYSTEM_LOSSES := by
    norm_num [calculateSystemLossFactor, DEFAULT_SYSTEM_LOSSES]
  have hrp : (0 : ℝ) < demoPanel.ratedPower := by norm_num [demoPanel]
  refine lt_of_lt_of_le ?_ (le_max_right 0 _)
  show (0 : ℝ) < demoPanel.ratedPower *
    ((⟨100, 0, 0, 100, 90, 100⟩ : POAIrradiance).effectiveIrradiance / 1000) *
    calculateTempDerating (calculateCellTemperature 20
      (⟨100, 0, 0, 100, 90, 100⟩ : POAIrradiance).total demoPanel.noct 1)
      demoPanel.tempCoefficient 25 *
    calculateSystemLossFactor DEFAULT_SYSTEM_LOSSES
  show (0 : ℝ) < demoPanel.ratedPower * ((100 : ℝ) / 1000) *
    calculateTempDerating (calculateCellTemperature 20 (100 : ℝ)
      demoPanel.noct 1) demoPanel.tempCoefficient 25 *
    calculateSystemLossFactor DEFAULT_SYSTEM_LOSSES
  positivity

lemma partLoadMultiplier_pos {loadRatio : ℝ} (h : 0 ≤ loadRatio) :
    0 < partLoadMultiplier loadRatio := by
  rw [partLoadMultiplier]
  split_ifs <;> nlinarith

lemma calculateInverterOutput_pos {dcPower dcCapacity : ℝ}
    {cfg : InverterConfig} (hdc : 0 < dcPower) (hcap : 0 < dcCapacity)
    (heff : 0 < cfg.efficiency)
    (hac : 0 < inverterAcCapacity cfg dcCapacity) :
    0 < (calculateInverterOutput dcPower cfg dcCapacity).acPower := by
  simp only [calculateInverterOutput, if_neg (not_le.mpr hdc)]
  have hm := partLoadMultiplier_pos (le_of_lt (div_pos hdc hcap))
  have hpre : 0 < dcPower *
      (cfg.efficiency * partLoadMultiplier (dcPower / dcCapacity)) :=
    mul_pos hdc (mul_pos heff hm)
  by_cases hclip : inverterAcCapacity cfg dcCapacity <
      dcPower * (cfg.efficiency * partLoadMultiplier (dcPower / dcCapacity))
  · simp only [if_pos hclip]
    exact hac
  · simp only [if_neg hclip]
    exact hpre

lemma demo_power_pos :
    0 < hourlyAcPower demoIrr demoPos demoPanel demoOrient 1 20 0.2
      DEFAULT_SYSTEM_LOSSES DEFAULT_INVERTER_CONFIG 12 := by
  rw [hourlyAcPower, demo_poa]
  show 0 < (calculateInverterOutput
    ((calculateDCPower ⟨100, 0, 0, 100, 90, 100⟩ demoPanel 20
      DEFAULT_SYSTEM_LOSSES).dcPower * 1)
    DEFAULT_INVERTER_CONFIG (demoPanel.ratedPower * 1)).acPower
  apply calculateInverterOutput_pos
  · simpa using demo_dc_pos
  · norm_num [demoPanel]
  · norm_num [DEFAULT_INVERTER_CONFIG]
  · norm_num [inverterAcCapacity, DEFAULT_INVERTER_CONFIG, demoPanel]

/-- C10 witness: the amended day-profile theorem at the daytime fixture,
whose hour 12 produces positive AC power; the energy sum and the
peak-attainment property are obtained from it. -/
theorem claim_C10_day_profile_witness :
    (calculateDailyPowerOutput demoIrr demoPos demoPanel demoOrient 1 20 0.2
      DEFAULT_SYSTEM_LOSSES DEFAULT_INVERTER_CONFIG).dailyEnergy =
      ∑ h ∈ Finset.range 24, hourlyAcPower demoIrr demoPos demoPanel
        demoOrient 1 20 0.2 DEFAULT_SYSTEM_LOSSES DEFAULT_INVERTER_CONFIG h ∧
    hourlyAcPower demoIrr demoPos demoPanel demoOrient 1 20 0.2
      DEFAULT_SYSTEM_LOSSES DEFAULT_INVERTER_CONFIG
      ((calculateDailyPowerOutput demoIrr demoPos demoPanel demoOrient 1 20
        0.2 DEFAULT_SYSTEM_LOSSES DEFAULT_INVERTER_CONFIG).peakHour) =
      (calculateDailyPowerOutput demoIrr demoPos demoPanel demoOrient 1 20
        0.2 DEFAULT_SYSTEM_LOSSES DEFAULT_INVERTER_CONFIG).peakPower := by
  have h := claim_C10_day_profile demoIrr demoPos demoPanel demoOrient 1 20
    0.2 DEFAULT_SYSTEM_LOSSES DEFAULT_INVERTER_CONFIG
  exact ⟨h.1, (h.2.2.2.2.1 ⟨12, by norm_num, demo_power_pos⟩).2.1⟩

/-! ## Civil-time utilities (`timezone.ts`)

The source resolves wall-clock fields through `Intl.DateTimeFormat`.
That host capability — the IANA timezone database — is modelled
abstractly as an `Option (ℤ → ℤ)`: `some off` is a recognized timezone
whose signed UTC offset in minutes at each instant (epoch ms) is given by
`off`, and `none` is an unrecognized timezone identifier, for which the
source's `try`/`catch` fallback paths fire.  Instants are integer epoch
milliseconds; the wall-clock hour/minute fields the formatter reports for
an instant are its floor-division calendar decomposition (`/` and `%` on
`ℤ` are euclidean, which coincides with floor division for the positive
divisors used here).  The source's normalization of a reported hour of
"24" to 0 (a locale quirk of `hour12: false`) is subsumed: the remainder
is always in 0..23. -/

/-- `getTimezoneOffset`: the UTC offset in minutes of a timezone at an
instant, degrading to 0 for an unrecognized timezone. -/
def getTimezoneOffset (lookup : Option (ℤ → ℤ)) (t : ℤ) : ℤ :=
  match lookup with
  | none => 0
  | some off => off t

/-- `getLocalHourFromUtc`: the fractional local hour `hour + minute/60`
of an instant in a timezone, degrading to noon (12) for an unrecognized
timezone. -/
def getLocalHourFromUtc (lookup : Option (ℤ → ℤ)) (utcMs : ℤ) : ℝ :=
  match lookup with
  | none => 12
  | some off =>
    ((((utcMs + off utcMs * 60000) / 3600000) % 24 : ℤ) : ℝ) +
    ((((utcMs + off utcMs * 60000) / 60000) % 60 : ℤ) : ℝ) / 60

/-- The state of the DST-correction loop of `createLocalDateTime`:
the current UTC estimate, the previous iteration's offset (`none` models
the `NaN` initializer, which compares unequal to everything), the number
of loop iterations executed so far, and whether the loop has `break`-ed. -/
structure DstState where
  utcMs : ℤ
  prevOffset : Option ℤ
  iterations : ℕ
  done : Bool

/-- One iteration of the DST-correction loop: after the loop has broken
it does nothing; otherwise it looks the offset up at the current
estimate, breaks if it equals the previous offset, and else recomputes
`utcMs = naiveUtcMs - offset · 60000`. -/
def dstStep (off : ℤ → ℤ) (naiveMs : ℤ) (s : DstState) : DstState :=
  if s.done then s
  else if some (off s.utcMs) = s.prevOffset then
    { s with done := true, iterations := s.iterations + 1 }
  else
    { utcMs := naiveMs - off s.utcMs * 60000,
      prevOffset := some (off s.utcMs),
      iterations := s.iterations + 1,
      done := false }

/-- The DST-correction loop after `n` of its (at most 3) iterations. -/
def dstLoop (off : ℤ → ℤ) (naiveMs : ℤ) : ℕ → DstState
  | 0 => ⟨naiveMs, none, 0, false⟩
  | n + 1 => dstStep off naiveMs (dstLoop off naiveMs n)

/-- `createLocalDateTime`: resolves a fractional local hour on a calendar
day to a UTC instant.  `dayMs` is `Date.UTC(year, month, day)` of the
calendar day the timezone assigns to the reference date;
`Math.floor(localHour)` is `⌊·⌋`, `localHour % 1` is `jsMod localHour 1`,
and `Math.round(x)` is `⌊x + 1/2⌋`.  The candidate naive instant is then
corrected by the 3-iteration DST loop.  The function is total: it always
returns an instant. -/
def createLocalDateTime (dayMs : ℤ) (localHour : ℝ)
    (lookup : Option (ℤ → ℤ)) : ℤ :=
  let hours := ⌊localHour⌋
  let minutes := ⌊jsMod localHour 1 * 60 + 1 / 2⌋
  let naiveMs := dayMs + hours * 3600000 + minutes * 60000
  (dstLoop (getTimezoneOffset lookup) naiveMs 3).utcMs

lemma dstLoop_iterations_le (off : ℤ → ℤ) (naiveMs : ℤ) (n : ℕ) :
    (dstLoop off naiveMs n).iterations ≤ n := by
  induction n with
  | zero => exact le_refl _
  | succ n ih =>
    show (dstStep off naiveMs (dstLoop off naiveMs n)).iterations ≤ n + 1
    rw [dstStep]
    split_ifs
    · exact Nat.le_succ_of_le ih
    · exact Nat.succ_le_succ ih
    · exact Nat.succ_le_succ ih

/-- With an offset table that is stable at the first corrected estimate
(in particular with any constant offset), the loop converges after
exactly two executed iterations: one correction and one
confirm-and-break. -/
lemma dstLoop_stab (off : ℤ → ℤ) (naiveMs : ℤ)
    (hstab : off (naiveMs - off naiveMs * 60000) = off naiveMs) :
    dstLoop off naiveMs 3 =
      ⟨naiveMs - off naiveMs * 60000, some (off naiveMs), 2, true⟩ := by
  have h1 : dstLoop off naiveMs 1 =
      ⟨naiveMs - off naiveMs * 60000, some (off naiveMs), 1, false⟩ := by
    show dstStep off naiveMs ⟨naiveMs, none, 0, false⟩ = _
    rw [dstStep]
    simp
  have h2 : dstLoop off naiveMs 2 =
      ⟨naiveMs - off naiveMs * 60000, some (off naiveMs), 2, true⟩ := by
    show dstStep off naiveMs (dstLoop off naiveMs 1) = _
    rw [h1, dstStep]
    simp [hstab]
  show dstStep off naiveMs (dstLoop off naiveMs 2) = _
  rw [h2, dstStep]
  simp

/-! ## Claim theorems: civil-time resolver -/

/-- C7. Unknown-timezone fallback: for every instant, when the timezone
lookup capability is unavailable (unrecognized identifier),
`getLocalHourFromUtc` returns exactly 12 (noon) and `getTimezoneOffset`
returns exactly 0; both functions are total, so neither raises. -/
theorem claim_C7_unknown_timezone_fallback :
    (∀ utcMs : ℤ, getLocalHourFromUtc none utcMs = 12) ∧
    (∀ t : ℤ, getTimezoneOffset none t = 0) :=
  ⟨fun _ => rfl, fun _ => rfl⟩

/-- C6. Termination of the DST correction: for every input and every
offset-lookup behavior, the loop executes at most 3 iterations; once it
has broken it is frozen; it breaks — leaving the instant unchanged — as
soon as the looked-up offset equals the previous iteration's offset; and
when the lookup is stable at the first corrected estimate it converges
after exactly 2 iterations to `naive - offset·60000`.  `dstLoop` and
`createLocalDateTime` are structurally total, so the call always
terminates returning an instant. -/
theorem claim_C6_dst_loop_termination (off : ℤ → ℤ) (naiveMs : ℤ) :
    (dstLoop off naiveMs 3).iterations ≤ 3 ∧
    (∀ s : DstState, s.done = true → dstStep off naiveMs s = s) ∧
    (∀ s : DstState, s.done = false →
      some (off s.utcMs) = s.prevOffset →
      (dstStep off naiveMs s).done = true ∧
      (dstStep off naiveMs s).utcMs = s.utcMs) ∧
    (off (naiveMs - off naiveMs * 60000) = off naiveMs →
      (dstLoop off naiveMs 3).iterations = 2 ∧
      (dstLoop off naiveMs 3).utcMs = naiveMs - off naiveMs * 60000) := by
  refine ⟨dstLoop_iterations_le off naiveMs 3, ?_, ?_, ?_⟩
  · intro s hs
    rw [dstStep, if_pos hs]
  · intro s hs heq
    rw [dstStep, if_neg (by rw [hs]; exact Bool.false_ne_true), if_pos heq]
    exact ⟨rfl, rfl⟩
  · intro hstab
    rw [dstLoop_stab off naiveMs hstab]
    exact ⟨rfl, rfl⟩

/-- C6 witness: the loop at the constant offset −480 min (UTC−8) from
naive instant 0 converges in 2 iterations to `28800000` ms, a frozen
state is left untouched, and a matching offset breaks the loop. -/
theorem claim_C6_dst_loop_termination_witness :
    (dstLoop (fun _ => (-480 : ℤ)) 0 3).iterations = 2 ∧
    (dstLoop (fun _ => (-480 : ℤ)) 0 3).utcMs = 28800000 ∧
    dstStep (fun _ => (-480 : ℤ)) 0 ⟨7, none, 2, true⟩ = ⟨7, none, 2, true⟩ ∧
    (dstStep (fun _ => (-480 : ℤ)) 0 ⟨5, some (-480), 1, false⟩).done = true := by
  have h := claim_C6_dst_loop_termination (fun _ => (-480 : ℤ)) 0
  obtain ⟨hc1, hc2⟩ := h.2.2.2 rfl
  refine ⟨hc1, ?_, h.2.1 ⟨7, none, 2, true⟩ rfl,
    (h.2.2.1 ⟨5, some (-480), 1, false⟩ rfl rfl).1⟩
  rw [hc2]
  norm_num

/-- C5. Round-trip: for every calendar day (any multiple of 86400000 ms),
every fractional local hour `h ∈ [0, 24)` and every timezone whose UTC
offset is free of DST discontinuities around the chosen instant
(formalized: a constant offset table), extracting the local hour from the
resolved instant recovers `h` to within one-minute precision — up to the
24-hour wrap: an `h` within half a minute of 24.0 resolves to the next
midnight and reads back as hour 0. -/
theorem claim_C5_local_hour_roundtrip (k : ℤ) (localHour : ℝ) (c : ℤ)
    (off : ℤ → ℤ) (hconst : ∀ t, off t = c) (h0 : 0 ≤ localHour)
    (h24 : localHour < 24) :
    |getLocalHourFromUtc (some off)
        (createLocalDateTime (86400000 * k) localHour (some off)) -
      localHour| ≤ 1 / 60 ∨
    |getLocalHourFromUtc (some off)
        (createLocalDateTime (86400000 * k) localHour (some off)) -
      (localHour - 24)| ≤ 1 / 60 := by
  set hours := ⌊localHour⌋ with hhours
  set f := localHour - (hours : ℝ) with hf
  set m := ⌊f * 60 + 1 / 2⌋ with hm
  have hf0 : 0 ≤ f := by
    rw [hf]
    have := Int.floor_le localHour
    linarith
  have hf1 : f < 1 := by
    rw [hf]
    have := Int.lt_floor_add_one localHour
    linarith
  have hhours0 : 0 ≤ hours := Int.floor_nonneg.mpr h0
  have hhours23 : hours ≤ 23 := by
    have : hours < 24 := Int.floor_lt.mpr (by exact_mod_cast h24)
    omega
  have hm0 : 0 ≤ m := by
    rw [hm]
    apply Int.floor_nonneg.mpr
    linarith
  have hm60 : m ≤ 60 := by
    have : m < 61 := by
      rw [hm]
      apply Int.floor_lt.mpr
      push_cast
      linarith
    omega
  have hmlo : f * 60 - 1 / 2 ≤ (m : ℝ) := by
    have := Int.lt_floor_add_one (f * 60 + 1 / 2)
    rw [← hm] at this
    linarith
  have hmhi : (m : ℝ) ≤ f * 60 + 1 / 2 := by
    have := Int.floor_le (f * 60 + 1 / 2)
    rw [← hm] at this
    linarith
  -- the naive instant assembled by createLocalDateTime
  set total : ℤ := 60 * hours + m with htotal
  have hnaive : 86400000 * k + hours * 3600000 + m * 60000 =
      86400000 * k + total * 60000 := by
    rw [htotal]; ring
  have hfr : jsMod localHour 1 = f := by
    rw [jsMod_one_of_nonneg h0, hf, hhours]
  -- the resolved UTC instant under a constant offset
  have hoffeq : getTimezoneOffset (some off) = fun t => off t := rfl
  have hstab : getTimezoneOffset (some off)
      ((86400000 * k + total * 60000) -
        getTimezoneOffset (some off) (86400000 * k + total * 60000) * 60000) =
      getTimezoneOffset (some off) (86400000 * k + total * 60000) := by
    show off _ = off _
    rw [hconst, hconst]
  have hcreate : createLocalDateTime (86400000 * k) localHour (some off) =
      86400000 * k + total * 60000 - c * 60000 := by
    rw [createLocalDateTime]
    simp only [hfr, ← hhours, ← hm, hnaive]
    rw [dstLoop_stab _ _ hstab]
    show 86400000 * k + total * 60000 -
      off (86400000 * k + total * 60000) * 60000 = _
    rw [hconst]
  -- extraction reads back the naive instant's wall clock
  have hlocal : createLocalDateTime (86400000 * k) localHour (some off) +
      off (createLocalDateTime (86400000 * k) localHour (some off)) * 60000 =
      86400000 * k + total * 60000 := by
    rw [hcreate, hconst]
    ring
  have hextract : getLocalHourFromUtc (some off)
      (createLocalDateTime (86400000 * k) localHour (some off)) =
      ((((86400000 * k + total * 60000) / 3600000) % 24 : ℤ) : ℝ) +
      ((((86400000 * k + total * 60000) / 60000) % 60 : ℤ) : ℝ) / 60 := by
    show ((((_ + off _ * 60000) / 3600000) % 24 : ℤ) : ℝ) +
      ((((_ + off _ * 60000) / 60000) % 60 : ℤ) : ℝ) / 60 = _
    rw [hlocal]
  have htot0 : 0 ≤ total := by omega
  have htot1440 : total ≤ 1440 := by omega
  by_cases hcase : total < 1440
  · -- ordinary case: the wall clock reads back total minutes
    left
    have hdecomp : 60 * (((86400000 * k + total * 60000) / 3600000) % 24) +
        ((86400000 * k + total * 60000) / 60000) % 60 = total := by
      omega
    have hval : getLocalHourFromUtc (some off)
        (createLocalDateTime (86400000 * k) localHour (some off)) =
        (total : ℝ) / 60 := by
      rw [hextract]
      rw [show ((total : ℤ) : ℝ) =
        ((60 * (((86400000 * k + total * 60000) / 3600000) % 24) +
          ((86400000 * k + total * 60000) / 60000) % 60 : ℤ) : ℝ) from by
        rw [hdecomp]]
      push_cast
      ring
    rw [hval]
    have htr : ((total : ℤ) : ℝ) = 60 * (hours : ℝ) + (m : ℝ) := by
      rw [htotal]; push_cast; ring
    rw [abs_le]
    constructor
    · linarith [htr, hmlo, hmhi]
    · linarith [htr, hmlo, hmhi]
  · -- wrap case: localHour within half a minute of 24.0
    right
    have hteq : total = 1440 := by omega
    have hh23 : hours = 23 := by omega
    have hm60' : m = 60 := by omega
    have hdecomp0 : (((86400000 * k + total * 60000) / 3600000) % 24) = 0 ∧
        (((86400000 * k + total * 60000) / 60000) % 60) = 0 := by
      rw [hteq]
      constructor <;> omega
    have hval : getLocalHourFromUtc (some off)
        (createLocalDateTime (86400000 * k) localHour (some off)) = 0 := by
      rw [hextract, hdecomp0.1, hdecomp0.2]
      norm_num
    rw [hval]
    have hfge : 1 - 1 / 120 ≤ f := by
      rw [hm60'] at hmhi
      push_cast at hmhi
      linarith
    have hlh : localHour = 23 + f := by
      rw [hf, hh23]
      push_cast
      ring
    rw [abs_le, hlh]
    constructor <;> nlinarith

/-- C5 witness: the round-trip at local hour 13.5 on epoch day 0 with the
constant offset −480 min. -/
theorem claim_C5_local_hour_roundtrip_witness :
    |getLocalHourFromUtc (some fun _ => (-480 : ℤ))
        (createLocalDateTime (86400000 * 0) 13.5 (some fun _ => (-480 : ℤ))) -
      13.5| ≤ 1 / 60 ∨
    |getLocalHourFromUtc (some fun _ => (-480 : ℤ))
        (createLocalDateTime (86400000 * 0) 13.5 (some fun _ => (-480 : ℤ))) -
      (13.5 - 24)| ≤ 1 / 60 :=
  claim_C5_local_hour_roundtrip 0 13.5 (-480) (fun _ => (-480 : ℤ))
    (fun _ => rfl) (by norm_num) (by norm_num)

end SolarPower
